import Mathlib

/-!
Stop stage of the unprotected-right-turn traffic-light scenario.

A shallow embedding of
`modules/planning/scenarios/traffic_light/unprotected_right_turn/stage_stop.cc`
(`TrafficLightUnprotectedRightTurnStageStop::Process`, `FinishScenario`,
`FinishStage`) and theorems about one planning cycle of the stage.

Modelling conventions.

* C++ `double` values (times, durations, longitudinal offsets) are rationals,
  every finite double being one; NaN and infinities are not represented.
  Comparisons of doubles are exact. The subtraction of two doubles rounds its
  result, so it is not the subtraction of `ℚ`: the stage takes the subtraction
  it uses as its first argument `sub`, and the theorems hold for every `sub`.
  `doubleSub` is the subtraction of IEEE 754 binary64 (round to nearest, ties
  to even); the concrete inputs are evaluated with it. With the subtraction of
  `ℚ` for `sub` the statements are those of exact arithmetic.
* `Clock::NowInSeconds()` is an input `now` of the cycle; the one or two readings
  a cycle makes (lines 111/114 and 155) return that same value.
* `CHECK_NOTNULL(frame)` aborts on a null frame; `Process` takes the frame by
  value, so only cycles with a frame are represented.
* Calls made on collaborators (`GetOverlapOnReferenceLine`,
  `SetJunctionRightOfWay`, `GetSignal`, the planner, the persisted planning
  status) are recorded, in program order, in a list of `Call`s returned with the
  status and the new state.
-/

namespace StageStop

/-! ## Data model -/

/-- Modelled from the spec: the signal colour enumeration of
`perception::TrafficLight`, whose declaration is not part of the source file.
The stage only compares a colour with `GREEN`. -/
inductive Color where
  | RED
  | YELLOW
  | GREEN
  | UNKNOWN
  deriving DecidableEq, Repr

/-- The value returned by `Process`: `Stage::RUNNING` or `Stage::FINISHED`. -/
inductive StageStatus where
  | RUNNING
  | FINISHED
  deriving DecidableEq, Repr

/-- The stage selectors of `ScenarioConfig` that the file assigns to
`next_stage_`, together with the selector of the stop stage itself (the
value `next_stage_` is assumed to hold while the stage is running). -/
inductive StageType where
  | NO_STAGE
  | TRAFFIC_LIGHT_UNPROTECTED_RIGHT_TURN_STOP
  | TRAFFIC_LIGHT_UNPROTECTED_RIGHT_TURN_CREEP
  | TRAFFIC_LIGHT_UNPROTECTED_RIGHT_TURN_INTERSECTION_CRUISE
  deriving DecidableEq, Repr

/-- The three policy values of the scenario configuration read by the stage. -/
structure ScenarioConfig where
  max_valid_stop_distance : ℚ
  enable_right_turn_on_red : Bool
  red_light_right_turn_stop_duration_sec : ℚ
  deriving DecidableEq

/-- The part of `hdmap::PathOverlap` the stage reads. -/
structure PathOverlap where
  start_s : ℚ
  deriving DecidableEq

/-- The shared scenario context returned by `GetContext()`.
`stop_start_time = 0` is the source's encoding of "no anchor recorded"
(line 110 tests `stop_start_time == 0.0`). -/
structure Context where
  scenario_config : ScenarioConfig
  current_traffic_light_overlap_ids : List String
  stop_start_time : ℚ
  creep_start_time : ℚ
  deriving DecidableEq

/-- The traffic-light message of the persisted planning status: the stage
touches only its repeated field `done_traffic_light_overlap_id`. -/
structure TrafficLightStatus where
  done_traffic_light_overlap_id : List String
  deriving DecidableEq

/-- The persisted planning status (`PlanningContext::Instance()`): the optional
traffic-light message; `none` is the message after `clear_traffic_light()`. -/
structure PlanningStatus where
  traffic_light : Option TrafficLightStatus
  deriving DecidableEq

/-- Everything a cycle can read and write: the shared context, the two members
of the stage object (`scenario_config_`, `next_stage_`) and the persisted
planning status. -/
structure State where
  context : Context
  scenario_config_ : ScenarioConfig
  next_stage_ : StageType
  planning_status : PlanningStatus
  deriving DecidableEq

/-- The per-cycle snapshot reached through `frame`, for the front reference
line: crossing resolution by identifier (kind `SIGNAL`), the front-edge
position `AdcSlBoundary().end_s()`, the signal colour by identifier, and the
result of `ExecuteTaskOnReferenceLine`. -/
structure Frame where
  GetOverlapOnReferenceLine : String → Option PathOverlap
  adc_front_edge_s : ℚ
  GetSignal : String → Color
  plan_ok : Bool

/-- A call made on a collaborator during a cycle. -/
inductive Call where
  | ExecuteTaskOnReferenceLine
  | AERROR
  | GetOverlapOnReferenceLine (id : String)
  | SetJunctionRightOfWay (start_s : ℚ) (flag : Bool)
  | GetSignal (id : String)
  | clear_traffic_light
  | Clear_done_traffic_light_overlap_id
  | add_done_traffic_light_overlap_id (id : String)
  deriving DecidableEq

/-- The local variables of the aggregation loop (lines 61-100) and the calls
made so far in the cycle. -/
structure LoopVars where
  traffic_light_all_stop : Bool
  traffic_light_all_green : Bool
  calls : List Call
  deriving DecidableEq

/-- The result of one cycle: returned status, state afterwards, calls made. -/
structure Outcome where
  status : StageStatus
  state : State
  calls : List Call
  deriving DecidableEq

/-! ## Double subtraction -/

/-- Rounding of a rational to the nearest integer, ties to the even one. -/
def roundHalfEven (q : ℚ) : ℤ :=
  if q - ⌊q⌋ < 1 / 2 then ⌊q⌋
  else if 1 / 2 < q - ⌊q⌋ then ⌊q⌋ + 1
  else if ⌊q⌋ % 2 = 0 then ⌊q⌋
  else ⌊q⌋ + 1

/-- The spacing of binary64 values at the magnitude of `q`: `2 ^ (e - 52)` for
`2 ^ e ≤ |q| < 2 ^ (e + 1)`, and the subnormal spacing `2 ^ (-1074)` below
`2 ^ (-1022)`. -/
def doubleSpacing (q : ℚ) : ℚ := (2 : ℚ) ^ (max (Int.log 2 |q|) (-1022) - 52)

/-- Rounding of a rational to binary64, to nearest with ties to even. Results
beyond the largest finite double, which the machine turns into an infinity,
are outside the model. -/
def roundToDouble (q : ℚ) : ℚ := roundHalfEven (q / doubleSpacing q) * doubleSpacing q

/-- The difference of two doubles as the machine computes it: the exact
difference rounded to binary64. -/
def doubleSub (a b : ℚ) : ℚ := roundToDouble (a - b)

/-! ## The stage -/

/-- `FinishScenario` (lines 128-133): clear the persisted traffic-light
status, select `NO_STAGE`, return `FINISHED`. -/
def FinishScenario (st : State) (calls : List Call) : Outcome :=
  { status := StageStatus.FINISHED
    state := { st with
      planning_status := { st.planning_status with traffic_light := none }
      next_stage_ := StageType.NO_STAGE }
    calls := calls ++ [Call.clear_traffic_light] }

/-- The loop of `FinishStage` (lines 148-153): append every active identifier,
in order, to the persisted done-list. -/
def FinishStage_loop : List String → TrafficLightStatus → List Call →
    TrafficLightStatus × List Call
  | [], tl, calls => (tl, calls)
  | id :: rest, tl, calls =>
    FinishStage_loop rest
      { tl with done_traffic_light_overlap_id := tl.done_traffic_light_overlap_id ++ [id] }
      (calls ++ [Call.add_done_traffic_light_overlap_id id])

/-- `FinishStage` (lines 135-159). In protected mode only the next stage is
selected. Otherwise the persisted done-list is cleared (the message is created
by `mutable_traffic_light()` when absent) and rewritten from the active
sequence, `creep_start_time` is set to the clock reading, and the creep stage
is selected. -/
def FinishStage (now : ℚ) (protected_mode : Bool) (st : State) (calls : List Call) : Outcome :=
  if protected_mode then
    { status := StageStatus.FINISHED
      state := { st with
        next_stage_ := StageType.TRAFFIC_LIGHT_UNPROTECTED_RIGHT_TURN_INTERSECTION_CRUISE }
      calls := calls }
  else
    let tl0 : TrafficLightStatus :=
      match st.planning_status.traffic_light with
      | some tl => tl
      | none => { done_traffic_light_overlap_id := [] }
    let tl1 : TrafficLightStatus := { tl0 with done_traffic_light_overlap_id := [] }
    let r := FinishStage_loop st.context.current_traffic_light_overlap_ids tl1
      (calls ++ [Call.Clear_done_traffic_light_overlap_id])
    { status := StageStatus.FINISHED
      state := { st with
        planning_status := { st.planning_status with traffic_light := some r.1 }
        context := { st.context with creep_start_time := now }
        next_stage_ := StageType.TRAFFIC_LIGHT_UNPROTECTED_RIGHT_TURN_CREEP }
      calls := r.2 }

/-- The aggregation loop of `Process` (lines 64-100) over the remaining
identifiers. An unresolvable identifier is skipped (`continue`); a resolved
crossing gets its right-of-way flag cleared and its colour read, then the
distance check and the colour check each end the loop (`break`) on failure.
The distance is the double difference `sub start_s adc_front_edge_s` of lines
80-81. -/
def Process_loop (sub : ℚ → ℚ → ℚ) (frame : Frame) (max_valid_stop_distance : ℚ) :
    List String → LoopVars → LoopVars
  | [], v => v
  | traffic_light_overlap_id :: rest, v =>
    let v1 : LoopVars :=
      { v with calls := v.calls ++ [Call.GetOverlapOnReferenceLine traffic_light_overlap_id] }
    match frame.GetOverlapOnReferenceLine traffic_light_overlap_id with
    | none => Process_loop sub frame max_valid_stop_distance rest v1
    | some current_traffic_light_overlap =>
      let v2 : LoopVars :=
        { v1 with calls := v1.calls ++
            [Call.SetJunctionRightOfWay current_traffic_light_overlap.start_s false] }
      let distance_adc_to_stop_line :=
        sub current_traffic_light_overlap.start_s frame.adc_front_edge_s
      let signal_color := frame.GetSignal traffic_light_overlap_id
      let v3 : LoopVars :=
        { v2 with calls := v2.calls ++ [Call.GetSignal traffic_light_overlap_id] }
      if distance_adc_to_stop_line > max_valid_stop_distance then
        { v3 with traffic_light_all_stop := false }
      else if signal_color ≠ Color.GREEN then
        { v3 with traffic_light_all_green := false }
      else
        Process_loop sub frame max_valid_stop_distance rest v3

/-- The calls made before the active sequence is inspected (lines 50-53): the
planner is invoked, and a failure is logged. -/
def planCalls (frame : Frame) : List Call :=
  if frame.plan_ok then [Call.ExecuteTaskOnReferenceLine]
  else [Call.ExecuteTaskOnReferenceLine, Call.AERROR]

/-- `Process` (lines 43-126): one cycle of the stop stage at clock reading
`now`, with `sub` the subtraction of doubles (the wait of line 114 is
`sub now start_time`). -/
def Process (sub : ℚ → ℚ → ℚ) (now : ℚ) (frame : Frame) (st : State) : Outcome :=
  let st : State := { st with scenario_config_ := st.context.scenario_config }
  let calls := planCalls frame
  if st.context.current_traffic_light_overlap_ids.length = 0 then
    FinishScenario st calls
  else
    let v := Process_loop sub frame st.scenario_config_.max_valid_stop_distance
      st.context.current_traffic_light_overlap_ids
      { traffic_light_all_stop := true, traffic_light_all_green := true, calls := calls }
    if v.traffic_light_all_stop && v.traffic_light_all_green then
      FinishStage now true st v.calls
    else if st.scenario_config_.enable_right_turn_on_red then
      if v.traffic_light_all_stop && !v.traffic_light_all_green then
        if st.context.stop_start_time = 0 then
          { status := StageStatus.RUNNING
            state := { st with context := { st.context with stop_start_time := now } }
            calls := v.calls }
        else
          let start_time := st.context.stop_start_time
          let wait_time := sub now start_time
          if wait_time > st.scenario_config_.red_light_right_turn_stop_duration_sec then
            FinishStage now false st v.calls
          else
            { status := StageStatus.RUNNING, state := st, calls := v.calls }
      else
        { status := StageStatus.RUNNING, state := st, calls := v.calls }
    else
      { status := StageStatus.RUNNING, state := st, calls := v.calls }

/-! ## Observations on a cycle -/

/-- The two loop variables and the calls at the end of the aggregation loop of
a cycle started in state `st` (the loop reads the configuration and the active
sequence of the shared context). -/
def loopResult (sub : ℚ → ℚ → ℚ) (frame : Frame) (st : State) : LoopVars :=
  Process_loop sub frame st.context.scenario_config.max_valid_stop_distance
    st.context.current_traffic_light_overlap_ids
    { traffic_light_all_stop := true, traffic_light_all_green := true,
      calls := planCalls frame }

/-- The aggregation loop run from its initial variables (both `true`) with an
empty call list: the two booleans and the calls of the loop alone. -/
def aggregate (sub : ℚ → ℚ → ℚ) (frame : Frame) (max_valid_stop_distance : ℚ)
    (ids : List String) : LoopVars :=
  Process_loop sub frame max_valid_stop_distance ids
    { traffic_light_all_stop := true, traffic_light_all_green := true, calls := [] }

/-- The `SetJunctionRightOfWay` calls of a call list, in order. -/
def rightOfWayCalls (cs : List Call) : List (ℚ × Bool) :=
  cs.filterMap fun c =>
    match c with
    | Call.SetJunctionRightOfWay s b => some (s, b)
    | _ => none

/-- The identifiers passed to `GetSignal`, in order. -/
def colorLookups (cs : List Call) : List String :=
  cs.filterMap fun c =>
    match c with
    | Call.GetSignal id => some id
    | _ => none

/-- The identifiers passed to `GetOverlapOnReferenceLine`, in order. -/
def resolutions (cs : List Call) : List String :=
  cs.filterMap fun c =>
    match c with
    | Call.GetOverlapOnReferenceLine id => some id
    | _ => none

/-- The writes to the persisted done-list (`Clear` and `add`), in order. -/
def doneListWrites (cs : List Call) : List Call :=
  cs.filter fun c =>
    match c with
    | Call.Clear_done_traffic_light_overlap_id => true
    | Call.add_done_traffic_light_overlap_id _ => true
    | _ => false

/-- Lines 102-125 of `Process` as a function of the state after the
configuration refresh and of the loop's final variables. `Process` itself is
kept in one piece; `Process_nonempty` relates the two. -/
def stageDecision (sub : ℚ → ℚ → ℚ) (now : ℚ) (st : State) (v : LoopVars) : Outcome :=
  if v.traffic_light_all_stop && v.traffic_light_all_green then
    FinishStage now true st v.calls
  else if st.scenario_config_.enable_right_turn_on_red then
    if v.traffic_light_all_stop && !v.traffic_light_all_green then
      if st.context.stop_start_time = 0 then
        { status := StageStatus.RUNNING
          state := { st with context := { st.context with stop_start_time := now } }
          calls := v.calls }
      else
        if sub now st.context.stop_start_time >
            st.scenario_config_.red_light_right_turn_stop_duration_sec then
          FinishStage now false st v.calls
        else
          { status := StageStatus.RUNNING, state := st, calls := v.calls }
    else
      { status := StageStatus.RUNNING, state := st, calls := v.calls }
  else
    { status := StageStatus.RUNNING, state := st, calls := v.calls }

/-- Modelled from the spec: the cycle driver is not part of the source file.
Consecutive cycles run one after the other, each at its own clock reading and
on its own frame, the state left by one cycle being the state the next one
starts from (no change by the owner in between). The outcomes are returned in
order. -/
def runCycles (sub : ℚ → ℚ → ℚ) : List (ℚ × Frame) → State → List Outcome
  | [], _ => []
  | (now, frame) :: rest, st =>
    Process sub now frame st :: runCycles sub rest (Process sub now frame st).state

/-- Whether identifier `id` resolves to a crossing that fails the distance
check or, the distance check passed, the colour check. -/
def failsCheck (sub : ℚ → ℚ → ℚ) (frame : Frame) (max_valid_stop_distance : ℚ)
    (id : String) : Bool :=
  match frame.GetOverlapOnReferenceLine id with
  | none => false
  | some overlap =>
    decide (sub overlap.start_s frame.adc_front_edge_s > max_valid_stop_distance) ||
      decide (frame.GetSignal id ≠ Color.GREEN)

/-- The identifiers of the sequence up to and including the first one that
resolves to a crossing failing a check; the whole sequence if there is none. -/
def visitedIds (sub : ℚ → ℚ → ℚ) (frame : Frame) (max_valid_stop_distance : ℚ) :
    List String → List String
  | [] => []
  | id :: rest =>
    if failsCheck sub frame max_valid_stop_distance id then [id]
    else id :: visitedIds sub frame max_valid_stop_distance rest

/-- The right-of-way updates the spec prescribes for a sequence: `(start_s,
false)` for each resolvable crossing among the visited identifiers, in order. -/
def expectedRightOfWay (sub : ℚ → ℚ → ℚ) (frame : Frame) (max_valid_stop_distance : ℚ)
    (ids : List String) :
    List (ℚ × Bool) :=
  (visitedIds sub frame max_valid_stop_distance ids).filterMap fun id =>
    match frame.GetOverlapOnReferenceLine id with
    | none => none
    | some overlap => some (overlap.start_s, false)

/-- The resolvable identifiers of a sequence, in order. -/
def resolvableIds (frame : Frame) (ids : List String) : List String :=
  ids.filter fun id => (frame.GetOverlapOnReferenceLine id).isSome

/-- The state with every unresolvable identifier removed from the active
sequence. -/
def dropUnresolvable (frame : Frame) (st : State) : State :=
  { st with context := { st.context with
      current_traffic_light_overlap_ids :=
        resolvableIds frame st.context.current_traffic_light_overlap_ids } }

/-- Whether identifier `id` resolves to a crossing that passes the distance
check. -/
def withinStopRange (sub : ℚ → ℚ → ℚ) (frame : Frame) (max_valid_stop_distance : ℚ)
    (id : String) : Bool :=
  match frame.GetOverlapOnReferenceLine id with
  | none => false
  | some overlap =>
    decide (sub overlap.start_s frame.adc_front_edge_s ≤ max_valid_stop_distance)

/-- The colour lookups a cycle would make if a colour were read only after
the distance check has passed: the visited identifiers that resolve to a
crossing within `max_valid_stop_distance`. -/
def lookupsAfterDistanceCheck (sub : ℚ → ℚ → ℚ) (frame : Frame)
    (max_valid_stop_distance : ℚ)
    (ids : List String) : List String :=
  (visitedIds sub frame max_valid_stop_distance ids).filter
    (withinStopRange sub frame max_valid_stop_distance)

/-- The first identifier of the sequence that resolves to a crossing failing
a check, if any. -/
def firstFailing (sub : ℚ → ℚ → ℚ) (frame : Frame) (max_valid_stop_distance : ℚ)
    (ids : List String) :
    Option String :=
  ids.find? (failsCheck sub frame max_valid_stop_distance)

/-- Whether the cycle started in `st` on `frame` executes the assignment of
line 111: the sequence is not empty (line 55), right-turn-on-red is enabled
(line 107), the loop ended within stop range and not all green (line 109) and
`stop_start_time == 0.0` (line 110). -/
def assignsAnchor (sub : ℚ → ℚ → ℚ) (frame : Frame) (st : State) : Bool :=
  !st.context.current_traffic_light_overlap_ids.isEmpty &&
    st.context.scenario_config.enable_right_turn_on_red &&
    (loopResult sub frame st).traffic_light_all_stop &&
    !(loopResult sub frame st).traffic_light_all_green &&
    decide (st.context.stop_start_time = 0)

/-- The state after consecutive cycles (see `runCycles`). -/
def stateAfter (sub : ℚ → ℚ → ℚ) : List (ℚ × Frame) → State → State
  | [], st => st
  | (now, frame) :: rest, st => stateAfter sub rest (Process sub now frame st).state

/-- Modelled from the spec: the owner of the shared context switches
right-turn-on-red on between two cycles ("if the owner mutates configuration
mid-stage, behavior changes on the next cycle"). -/
def ownerEnablesRightTurnOnRed (st : State) : State :=
  { st with context := { st.context with
      scenario_config := { st.context.scenario_config with
        enable_right_turn_on_red := true } } }

/-! ## Concrete inputs -/

/-- The configuration of the spec's scenarios: stop distance 2.0, wait 5.0 s. -/
def cfgDemo (enable : Bool) : ScenarioConfig :=
  { max_valid_stop_distance := 2
    enable_right_turn_on_red := enable
    red_light_right_turn_stop_duration_sec := 5 }

/-- A frame with the given front edge, `tl_1` at 10.0 and `tl_2` at 11.0
showing the given colours; every other identifier is unresolvable. -/
def frameDemo (edge : ℚ) (c1 c2 : Color) : Frame :=
  { GetOverlapOnReferenceLine := fun id =>
      if id = "tl_1" then some { start_s := 10 }
      else if id = "tl_2" then some { start_s := 11 }
      else none
    adc_front_edge_s := edge
    GetSignal := fun id => if id = "tl_1" then c1 else if id = "tl_2" then c2 else Color.UNKNOWN
    plan_ok := true }

/-- A state with the given active sequence, policy switch and anchor; the
persisted done-list holds a stale entry. -/
def stateDemo (ids : List String) (enable : Bool) (anchor : ℚ) : State :=
  { context :=
      { scenario_config := cfgDemo enable
        current_traffic_light_overlap_ids := ids
        stop_start_time := anchor
        creep_start_time := 0 }
    scenario_config_ := cfgDemo enable
    next_stage_ := StageType.TRAFFIC_LIGHT_UNPROTECTED_RIGHT_TURN_STOP
    planning_status := { traffic_light := some { done_traffic_light_overlap_id := ["old"] } } }

/-- The binary64 value nearest to the decimal 0.8. -/
def double_0_8 : ℚ := 3602879701896397 / 4503599627370496

/-- The binary64 value nearest to the decimal 0.3. -/
def double_0_3 : ℚ := 5404319552844595 / 18014398509481984

/-- A frame with the front edge at the double 0.3 and `tl_1` at the double 0.8,
showing the given colour; every other identifier is unresolvable. -/
def frameBoundary (c1 : Color) : Frame :=
  { GetOverlapOnReferenceLine := fun id =>
      if id = "tl_1" then some { start_s := double_0_8 } else none
    adc_front_edge_s := double_0_3
    GetSignal := fun id => if id = "tl_1" then c1 else Color.UNKNOWN
    plan_ok := true }

/-- A state with active sequence `[tl_1]`, stop distance 0.5 and wait 0.5 s,
right-turn-on-red enabled, and the given anchor. -/
def stateBoundary (anchor : ℚ) : State :=
  { context :=
      { scenario_config :=
          { max_valid_stop_distance := 1 / 2
            enable_right_turn_on_red := true
            red_light_right_turn_stop_duration_sec := 1 / 2 }
        current_traffic_light_overlap_ids := ["tl_1"]
        stop_start_time := anchor
        creep_start_time := 0 }
    scenario_config_ :=
      { max_valid_stop_distance := 1 / 2
        enable_right_turn_on_red := true
        red_light_right_turn_stop_duration_sec := 1 / 2 }
    next_stage_ := StageType.TRAFFIC_LIGHT_UNPROTECTED_RIGHT_TURN_STOP
    planning_status := { traffic_light := none } }

/-! In the theorems below `sub` is an arbitrary subtraction of doubles: every
statement that mentions it holds for each `sub : ℚ → ℚ → ℚ`, `doubleSub` and the
subtraction of `ℚ` among them. -/

variable {sub : ℚ → ℚ → ℚ}

/-! ## Rounding -/

theorem roundHalfEven_intCast (z : ℤ) : roundHalfEven (z : ℚ) = z := by
  simp [roundHalfEven]

theorem doubleSpacing_pos (q : ℚ) : 0 < doubleSpacing q := by
  unfold doubleSpacing
  positivity

/-- A rational that is an integer multiple of the spacing at its magnitude is
a double: rounding leaves it as it is. -/
theorem roundToDouble_of_multiple (q : ℚ) (z : ℤ) (h : q = z * doubleSpacing q) :
    roundToDouble q = q := by
  have hq : q / doubleSpacing q = z := by
    rw [div_eq_iff (ne_of_gt (doubleSpacing_pos q))]
    exact h
  unfold roundToDouble
  rw [hq, roundHalfEven_intCast]
  exact h.symm

theorem log_intCast_bounds (n : ℤ) (h0 : n ≠ 0) (h : |n| < 2 ^ 53) :
    0 ≤ Int.log 2 |(n : ℚ)| ∧ Int.log 2 |(n : ℚ)| ≤ 52 := by
  have habs : (1 : ℚ) ≤ |(n : ℚ)| := by
    have : (1 : ℤ) ≤ |n| := Int.one_le_abs h0
    exact_mod_cast this
  have hpos : (0 : ℚ) < |(n : ℚ)| := lt_of_lt_of_le one_pos habs
  constructor
  · rw [← Int.zpow_le_iff_le_log (by norm_num) hpos]
    simpa using habs
  · have : Int.log 2 |(n : ℚ)| < 53 := by
      rw [← Int.lt_zpow_iff_log_lt (by norm_num) hpos]
      have h2 : ((|n| : ℤ) : ℚ) < ((2 ^ 53 : ℤ) : ℚ) := by exact_mod_cast h
      rw [Int.cast_abs] at h2
      norm_num at h2 ⊢
      exact h2
    omega

/-- Integers below `2 ^ 53` in absolute value are doubles. -/
theorem roundToDouble_intCast (n : ℤ) (h : |n| < 2 ^ 53) : roundToDouble (n : ℚ) = n := by
  by_cases h0 : n = 0
  · subst h0
    simp [roundToDouble, roundHalfEven]
  · obtain ⟨h1, h2⟩ := log_intCast_bounds n h0 h
    refine roundToDouble_of_multiple (n : ℚ) (n * 2 ^ (52 - Int.log 2 |(n : ℚ)|).toNat) ?_
    unfold doubleSpacing
    rw [max_eq_left (by omega)]
    generalize Int.log 2 |(n : ℚ)| = e at h1 h2
    obtain ⟨k, rfl⟩ := Int.eq_ofNat_of_zero_le h1
    have hk : k ≤ 52 := by omega
    have hsub : ((52 : ℤ) - (k : ℤ)).toNat = 52 - k := by omega
    rw [hsub]
    push_cast
    rw [mul_assoc, ← zpow_natCast, ← zpow_add₀ (by norm_num)]
    have hz : ((52 - k : ℕ) : ℤ) + ((k : ℤ) - 52) = 0 := by omega
    rw [hz]
    simp

/-- The double difference of two doubles whose exact difference is an integer
below `2 ^ 53` in absolute value is that integer: no rounding takes place. -/
theorem doubleSub_of_int (a b : ℚ) (n : ℤ) (hn : |n| < 2 ^ 53) (h : a - b = n) :
    doubleSub a b = n := by
  unfold doubleSub
  rw [h]
  exact roundToDouble_intCast n hn

theorem log_eq_of_bounds (q : ℚ) (e : ℤ) (hq : 0 < q) (h1 : (2 : ℚ) ^ e ≤ q)
    (h2 : q < (2 : ℚ) ^ (e + 1)) : Int.log 2 |q| = e := by
  rw [abs_of_pos hq]
  apply le_antisymm
  · have : Int.log 2 q < e + 1 := by
      rw [← Int.lt_zpow_iff_log_lt (by norm_num) hq]
      simpa using h2
    omega
  · rw [← Int.zpow_le_iff_le_log (by norm_num) hq]
    simpa using h1

/-- The rational `double_0_8` is a double: rounding leaves it as it is. -/
theorem roundToDouble_double_0_8 : roundToDouble double_0_8 = double_0_8 := by
  have hl : Int.log 2 |double_0_8| = -1 :=
    log_eq_of_bounds _ _ (by norm_num [double_0_8]) (by norm_num [double_0_8])
      (by norm_num [double_0_8])
  refine roundToDouble_of_multiple _ 7205759403792794 ?_
  unfold doubleSpacing
  rw [hl]
  norm_num [double_0_8]

/-- The rational `double_0_3` is a double: rounding leaves it as it is. -/
theorem roundToDouble_double_0_3 : roundToDouble double_0_3 = double_0_3 := by
  have hl : Int.log 2 |double_0_3| = -2 :=
    log_eq_of_bounds _ _ (by norm_num [double_0_3]) (by norm_num [double_0_3])
      (by norm_num [double_0_3])
  refine roundToDouble_of_multiple _ 5404319552844595 ?_
  unfold doubleSpacing
  rw [hl]
  norm_num [double_0_3]

/-- The decimal 0.8 rounds to `double_0_8`. -/
theorem roundToDouble_decimal_0_8 : roundToDouble (4 / 5) = double_0_8 := by
  have hl : Int.log 2 |(4 / 5 : ℚ)| = -1 :=
    log_eq_of_bounds _ _ (by norm_num) (by norm_num) (by norm_num)
  unfold roundToDouble doubleSpacing
  rw [hl]
  have hf : ⌊(4 / 5 : ℚ) / 2 ^ (max (-1 : ℤ) (-1022) - 52)⌋ = 7205759403792793 := by
    rw [Int.floor_eq_iff]
    norm_num
  unfold roundHalfEven
  rw [hf]
  norm_num [double_0_8]

/-- The decimal 0.3 rounds to `double_0_3`. -/
theorem roundToDouble_decimal_0_3 : roundToDouble (3 / 10) = double_0_3 := by
  have hl : Int.log 2 |(3 / 10 : ℚ)| = -2 :=
    log_eq_of_bounds _ _ (by norm_num) (by norm_num) (by norm_num)
  unfold roundToDouble doubleSpacing
  rw [hl]
  have hf : ⌊(3 / 10 : ℚ) / 2 ^ (max (-2 : ℤ) (-1022) - 52)⌋ = 5404319552844595 := by
    rw [Int.floor_eq_iff]
    norm_num
  unfold roundHalfEven
  rw [hf]
  norm_num [double_0_3]

/-- The double difference of the doubles 0.8 and 0.3 is the double 0.5: the
exact difference `0.5 + 2 ^ (-54)` lies half-way between two doubles and is
rounded to the even one. -/
@[simp]
theorem doubleSub_0_8_0_3 : doubleSub double_0_8 double_0_3 = 1 / 2 := by
  have hd : double_0_8 - double_0_3 = 9007199254740993 / 18014398509481984 := by
    norm_num [double_0_8, double_0_3]
  have hl : Int.log 2 |(9007199254740993 / 18014398509481984 : ℚ)| = -1 :=
    log_eq_of_bounds _ _ (by norm_num) (by norm_num) (by norm_num)
  unfold doubleSub roundToDouble doubleSpacing
  rw [hd, hl]
  have hf : ⌊(9007199254740993 / 18014398509481984 : ℚ) /
      2 ^ (max (-1 : ℤ) (-1022) - 52)⌋ = 4503599627370496 := by
    rw [Int.floor_eq_iff]
    norm_num
  unfold roundHalfEven
  rw [hf]
  norm_num

@[simp]
theorem doubleSub_10_9 : doubleSub 10 9 = 1 := by
  simpa using doubleSub_of_int 10 9 1 (by norm_num) (by norm_num)

@[simp]
theorem doubleSub_11_9 : doubleSub 11 9 = 2 := by
  simpa using doubleSub_of_int 11 9 2 (by norm_num) (by norm_num)

@[simp]
theorem doubleSub_10_5 : doubleSub 10 5 = 5 := by
  simpa using doubleSub_of_int 10 5 5 (by norm_num) (by norm_num)

@[simp]
theorem doubleSub_10_8 : doubleSub 10 8 = 2 := by
  simpa using doubleSub_of_int 10 8 2 (by norm_num) (by norm_num)

@[simp]
theorem doubleSub_7_1 : doubleSub 7 1 = 6 := by
  simpa using doubleSub_of_int 7 1 6 (by norm_num) (by norm_num)

@[simp]
theorem doubleSub_1000_0 : doubleSub 1000 0 = 1000 := by
  simpa using doubleSub_of_int 1000 0 1000 (by norm_num) (by norm_num)

/-! ## The aggregation loop -/

theorem Process_loop_eq (f : Frame) (m : ℚ) (ids : List String) (v : LoopVars) :
    Process_loop sub f m ids v =
      { traffic_light_all_stop :=
          v.traffic_light_all_stop && (aggregate sub f m ids).traffic_light_all_stop
        traffic_light_all_green :=
          v.traffic_light_all_green && (aggregate sub f m ids).traffic_light_all_green
        calls := v.calls ++ (aggregate sub f m ids).calls } := by
  induction ids generalizing v with
  | nil => simp [aggregate, Process_loop]
  | cons id rest ih =>
    unfold aggregate
    simp only [Process_loop]
    cases h : f.GetOverlapOnReferenceLine id with
    | none =>
      simp only []
      rw [ih, ih { traffic_light_all_stop := true, traffic_light_all_green := true, calls := _ }]
      simp
    | some o =>
      simp only []
      split_ifs
      · simp
      · simp
      · rw [ih, ih { traffic_light_all_stop := true, traffic_light_all_green := true, calls := _ }]
        simp

theorem aggregate_nil (f : Frame) (m : ℚ) :
    aggregate sub f m [] = ⟨true, true, []⟩ := rfl

theorem aggregate_cons_none (f : Frame) (m : ℚ) (id : String) (rest : List String)
    (h : f.GetOverlapOnReferenceLine id = none) :
    aggregate sub f m (id :: rest) =
      { traffic_light_all_stop := (aggregate sub f m rest).traffic_light_all_stop
        traffic_light_all_green := (aggregate sub f m rest).traffic_light_all_green
        calls := Call.GetOverlapOnReferenceLine id :: (aggregate sub f m rest).calls } := by
  unfold aggregate
  simp only [Process_loop, h]
  rw [Process_loop_eq]
  simp [aggregate]

theorem aggregate_cons_far (f : Frame) (m : ℚ) (id : String) (rest : List String)
    (o : PathOverlap) (h : f.GetOverlapOnReferenceLine id = some o)
    (hd : sub o.start_s f.adc_front_edge_s > m) :
    aggregate sub f m (id :: rest) =
      { traffic_light_all_stop := false
        traffic_light_all_green := true
        calls := [Call.GetOverlapOnReferenceLine id, Call.SetJunctionRightOfWay o.start_s false,
          Call.GetSignal id] } := by
  unfold aggregate
  simp [Process_loop, h, hd]

theorem aggregate_cons_not_green (f : Frame) (m : ℚ) (id : String) (rest : List String)
    (o : PathOverlap) (h : f.GetOverlapOnReferenceLine id = some o)
    (hd : ¬ sub o.start_s f.adc_front_edge_s > m) (hc : f.GetSignal id ≠ Color.GREEN) :
    aggregate sub f m (id :: rest) =
      { traffic_light_all_stop := true
        traffic_light_all_green := false
        calls := [Call.GetOverlapOnReferenceLine id, Call.SetJunctionRightOfWay o.start_s false,
          Call.GetSignal id] } := by
  unfold aggregate
  simp [Process_loop, h, hd, hc]

theorem aggregate_cons_pass (f : Frame) (m : ℚ) (id : String) (rest : List String)
    (o : PathOverlap) (h : f.GetOverlapOnReferenceLine id = some o)
    (hd : ¬ sub o.start_s f.adc_front_edge_s > m) (hc : f.GetSignal id = Color.GREEN) :
    aggregate sub f m (id :: rest) =
      { traffic_light_all_stop := (aggregate sub f m rest).traffic_light_all_stop
        traffic_light_all_green := (aggregate sub f m rest).traffic_light_all_green
        calls := Call.GetOverlapOnReferenceLine id :: Call.SetJunctionRightOfWay o.start_s false ::
          Call.GetSignal id :: (aggregate sub f m rest).calls } := by
  unfold aggregate
  simp only [Process_loop, h]
  rw [Process_loop_eq]
  simp [aggregate, hd, hc]

theorem loopResult_eq (f : Frame) (st : State) :
    loopResult sub f st =
      { traffic_light_all_stop :=
          (aggregate sub f st.context.scenario_config.max_valid_stop_distance
            st.context.current_traffic_light_overlap_ids).traffic_light_all_stop
        traffic_light_all_green :=
          (aggregate sub f st.context.scenario_config.max_valid_stop_distance
            st.context.current_traffic_light_overlap_ids).traffic_light_all_green
        calls := planCalls f ++
          (aggregate sub f st.context.scenario_config.max_valid_stop_distance
            st.context.current_traffic_light_overlap_ids).calls } := by
  unfold loopResult
  rw [Process_loop_eq]
  simp

/-- The loop over an empty sequence leaves both variables `true`. -/
theorem loopResult_nil (f : Frame) (st : State)
    (h : st.context.current_traffic_light_overlap_ids = []) :
    (loopResult sub f st).traffic_light_all_stop = true ∧
      (loopResult sub f st).traffic_light_all_green = true := by
  simp [loopResult, h, Process_loop]

/-! ## The cycle -/

theorem Process_empty (now : ℚ) (f : Frame) (st : State)
    (h : st.context.current_traffic_light_overlap_ids = []) :
    Process sub now f st =
      FinishScenario { st with scenario_config_ := st.context.scenario_config } (planCalls f) := by
  simp [Process, h]

theorem Process_nonempty (now : ℚ) (f : Frame) (st : State)
    (h : st.context.current_traffic_light_overlap_ids ≠ []) :
    Process sub now f st =
      stageDecision sub now { st with scenario_config_ := st.context.scenario_config }
        (loopResult sub f st) := by
  simp only [Process, List.length_eq_zero, h, if_false, stageDecision, loopResult]

theorem FinishStage_loop_eq (ids : List String) (tl : TrafficLightStatus) (calls : List Call) :
    FinishStage_loop ids tl calls =
      ({ done_traffic_light_overlap_id := tl.done_traffic_light_overlap_id ++ ids },
        calls ++ ids.map Call.add_done_traffic_light_overlap_id) := by
  induction ids generalizing tl calls with
  | nil => simp [FinishStage_loop]
  | cons id rest ih => simp [FinishStage_loop, ih]

theorem loopResult_congr (f : Frame) (st st' : State) (h : st'.context = st.context) :
    loopResult sub f st' = loopResult sub f st := by
  unfold loopResult
  rw [h]

theorem aggregate_all_pass (f : Frame) (m : ℚ) (ids : List String)
    (h : ∀ id ∈ ids, ∀ o, f.GetOverlapOnReferenceLine id = some o →
      sub o.start_s f.adc_front_edge_s ≤ m ∧ f.GetSignal id = Color.GREEN) :
    (aggregate sub f m ids).traffic_light_all_stop = true ∧
      (aggregate sub f m ids).traffic_light_all_green = true := by
  induction ids with
  | nil => simp [aggregate_nil]
  | cons id rest ih =>
    have ih2 := ih (fun x hx => h x (List.mem_cons_of_mem _ hx))
    cases hov : f.GetOverlapOnReferenceLine id with
    | none =>
      rw [aggregate_cons_none f m id rest hov]
      exact ih2
    | some o =>
      obtain ⟨hd, hc⟩ := h id (List.mem_cons_self _ _) o hov
      rw [aggregate_cons_pass f m id rest o hov (not_lt.mpr hd) hc]
      exact ih2

theorem doneListWrites_append (a b : List Call) :
    doneListWrites (a ++ b) = doneListWrites a ++ doneListWrites b := by
  simp [doneListWrites]

theorem doneListWrites_planCalls (f : Frame) : doneListWrites (planCalls f) = [] := by
  unfold planCalls
  split_ifs <;> simp [doneListWrites]

theorem doneListWrites_aggregate (f : Frame) (m : ℚ) (ids : List String) :
    doneListWrites (aggregate sub f m ids).calls = [] := by
  induction ids with
  | nil => simp [aggregate_nil, doneListWrites]
  | cons id rest ih =>
    cases hov : f.GetOverlapOnReferenceLine id with
    | none =>
      rw [aggregate_cons_none f m id rest hov]
      simpa [doneListWrites] using ih
    | some o =>
      by_cases hd : sub o.start_s f.adc_front_edge_s > m
      · rw [aggregate_cons_far f m id rest o hov hd]
        simp [doneListWrites]
      · by_cases hc : f.GetSignal id = Color.GREEN
        · rw [aggregate_cons_pass f m id rest o hov hd hc]
          simpa [doneListWrites] using ih
        · rw [aggregate_cons_not_green f m id rest o hov hd hc]
          simp [doneListWrites]

theorem doneListWrites_loopResult (f : Frame) (st : State) :
    doneListWrites (loopResult sub f st).calls = [] := by
  rw [loopResult_eq]
  simp [doneListWrites_append, doneListWrites_planCalls, doneListWrites_aggregate]

/-- A cycle whose loop ends with `traffic_light_all_stop = false` returns
`RUNNING` and changes nothing but the cached configuration. -/
theorem Process_not_stop (now : ℚ) (f : Frame) (st : State)
    (hstop : (loopResult sub f st).traffic_light_all_stop = false) :
    Process sub now f st =
      { status := StageStatus.RUNNING
        state := { st with scenario_config_ := st.context.scenario_config }
        calls := (loopResult sub f st).calls } := by
  have hne : st.context.current_traffic_light_overlap_ids ≠ [] := by
    intro h
    have := (@loopResult_nil sub f st h).1
    rw [hstop] at this
    cases this
  rw [Process_nonempty now f st hne]
  simp [stageDecision, hstop]

theorem runCycles_length (cycles : List (ℚ × Frame)) (st : State) :
    (runCycles sub cycles st).length = cycles.length := by
  induction cycles generalizing st with
  | nil => rfl
  | cons c rest ih =>
    obtain ⟨now, f⟩ := c
    simp [runCycles, ih]

/-! ## Calls of a cycle -/

theorem resolutions_map_add (ids : List String) :
    resolutions (ids.map Call.add_done_traffic_light_overlap_id) = [] := by
  simp [resolutions]

theorem rightOfWayCalls_map_add (ids : List String) :
    rightOfWayCalls (ids.map Call.add_done_traffic_light_overlap_id) = [] := by
  simp [rightOfWayCalls]

theorem colorLookups_map_add (ids : List String) :
    colorLookups (ids.map Call.add_done_traffic_light_overlap_id) = [] := by
  simp [colorLookups]

/-- The calls of a cycle are the planner calls, then the calls of the loop,
then writes to the persisted status only. -/
theorem Process_calls (now : ℚ) (f : Frame) (st : State) :
    ∃ w, (Process sub now f st).calls =
        planCalls f ++ (aggregate sub f st.context.scenario_config.max_valid_stop_distance
          st.context.current_traffic_light_overlap_ids).calls ++ w ∧
      resolutions w = [] ∧ rightOfWayCalls w = [] ∧ colorLookups w = [] := by
  by_cases hne : st.context.current_traffic_light_overlap_ids = []
  · refine ⟨[Call.clear_traffic_light], ?_, rfl, rfl, rfl⟩
    rw [Process_empty now f st hne, hne]
    simp [FinishScenario, aggregate_nil]
  · rw [Process_nonempty now f st hne]
    have hl : (loopResult sub f st).calls = planCalls f ++
        (aggregate sub f st.context.scenario_config.max_valid_stop_distance
          st.context.current_traffic_light_overlap_ids).calls := by
      rw [loopResult_eq]
    unfold stageDecision
    split_ifs
    · exact ⟨[], by simp [FinishStage, hl], rfl, rfl, rfl⟩
    · exact ⟨[], by simp [hl], rfl, rfl, rfl⟩
    · refine ⟨Call.Clear_done_traffic_light_overlap_id ::
        st.context.current_traffic_light_overlap_ids.map
          Call.add_done_traffic_light_overlap_id, ?_, ?_, ?_, ?_⟩
      · simp [FinishStage, FinishStage_loop_eq, hl]
      · simp [resolutions]
      · simp [rightOfWayCalls]
      · simp [colorLookups]
    · exact ⟨[], by simp [hl], rfl, rfl, rfl⟩
    · exact ⟨[], by simp [hl], rfl, rfl, rfl⟩
    · exact ⟨[], by simp [hl], rfl, rfl, rfl⟩

theorem resolutions_planCalls (f : Frame) : resolutions (planCalls f) = [] := by
  unfold planCalls
  split_ifs <;> rfl

theorem rightOfWayCalls_planCalls (f : Frame) : rightOfWayCalls (planCalls f) = [] := by
  unfold planCalls
  split_ifs <;> rfl

theorem colorLookups_planCalls (f : Frame) : colorLookups (planCalls f) = [] := by
  unfold planCalls
  split_ifs <;> rfl

theorem resolutions_Process (now : ℚ) (f : Frame) (st : State) :
    resolutions (Process sub now f st).calls =
      resolutions (aggregate sub f st.context.scenario_config.max_valid_stop_distance
        st.context.current_traffic_light_overlap_ids).calls := by
  obtain ⟨w, hw, h1, _, _⟩ := Process_calls now f st
  rw [hw]
  have hp := resolutions_planCalls f
  simp only [resolutions, List.filterMap_append] at h1 hp ⊢
  rw [h1, hp]
  simp

theorem rightOfWayCalls_Process (now : ℚ) (f : Frame) (st : State) :
    rightOfWayCalls (Process sub now f st).calls =
      rightOfWayCalls (aggregate sub f st.context.scenario_config.max_valid_stop_distance
        st.context.current_traffic_light_overlap_ids).calls := by
  obtain ⟨w, hw, _, h1, _⟩ := Process_calls now f st
  rw [hw]
  have hp := rightOfWayCalls_planCalls f
  simp only [rightOfWayCalls, List.filterMap_append] at h1 hp ⊢
  rw [h1, hp]
  simp

theorem colorLookups_Process (now : ℚ) (f : Frame) (st : State) :
    colorLookups (Process sub now f st).calls =
      colorLookups (aggregate sub f st.context.scenario_config.max_valid_stop_distance
        st.context.current_traffic_light_overlap_ids).calls := by
  obtain ⟨w, hw, _, _, h1⟩ := Process_calls now f st
  rw [hw]
  have hp := colorLookups_planCalls f
  simp only [colorLookups, List.filterMap_append] at h1 hp ⊢
  rw [h1, hp]
  simp

/-- A leading run of identifiers that are unresolvable or pass both checks is
traversed in full: the loop's booleans are those of the remaining sequence, and
the run contributes one resolution per identifier and one colour lookup per
resolvable identifier. -/
theorem aggregate_append_pass (f : Frame) (m : ℚ) (pre rest : List String)
    (h : ∀ id ∈ pre, ∀ o, f.GetOverlapOnReferenceLine id = some o →
      sub o.start_s f.adc_front_edge_s ≤ m ∧ f.GetSignal id = Color.GREEN) :
    (aggregate sub f m (pre ++ rest)).traffic_light_all_stop =
        (aggregate sub f m rest).traffic_light_all_stop ∧
      (aggregate sub f m (pre ++ rest)).traffic_light_all_green =
        (aggregate sub f m rest).traffic_light_all_green ∧
      resolutions (aggregate sub f m (pre ++ rest)).calls =
        pre ++ resolutions (aggregate sub f m rest).calls ∧
      colorLookups (aggregate sub f m (pre ++ rest)).calls =
        resolvableIds f pre ++ colorLookups (aggregate sub f m rest).calls := by
  induction pre with
  | nil => simp [resolvableIds]
  | cons id pre ih =>
    obtain ⟨i1, i2, i3, i4⟩ := ih (fun x hx => h x (List.mem_cons_of_mem _ hx))
    rw [List.cons_append]
    cases hov : f.GetOverlapOnReferenceLine id with
    | none =>
      rw [aggregate_cons_none f m id _ hov]
      refine ⟨i1, i2, ?_, ?_⟩
      · simpa [resolutions] using i3
      · simpa [colorLookups, resolvableIds, hov] using i4
    | some o =>
      obtain ⟨hd, hc⟩ := h id (List.mem_cons_self _ _) o hov
      rw [aggregate_cons_pass f m id _ o hov (not_lt.mpr hd) hc]
      refine ⟨i1, i2, ?_, ?_⟩
      · simpa [resolutions] using i3
      · simpa [colorLookups, resolvableIds, hov] using i4

/-! ## The concrete scenario of the spec -/

/-- The loop on the spec's scenario: front edge 9.0, `tl_1` at 10.0 showing
red, `max_valid_stop_distance` 2.0. The loop stops at `tl_1`. -/
theorem demo_loop_red (c2 : Color) (enable : Bool) (anchor : ℚ) :
    loopResult doubleSub (frameDemo 9 Color.RED c2) (stateDemo ["tl_1", "tl_2"] enable anchor) =
      { traffic_light_all_stop := true
        traffic_light_all_green := false
        calls := [Call.ExecuteTaskOnReferenceLine, Call.GetOverlapOnReferenceLine "tl_1",
          Call.SetJunctionRightOfWay 10 false, Call.GetSignal "tl_1"] } := by
  simp [loopResult, stateDemo, frameDemo, cfgDemo, Process_loop, planCalls]

/-- The first cycle of the spec's scenario, at time 1 with no anchor recorded:
the state afterwards is the initial one with the anchor set to 1. -/
theorem demo_first_cycle :
    (Process doubleSub 1 (frameDemo 9 Color.RED Color.GREEN)
        (stateDemo ["tl_1", "tl_2"] true 0)).state =
      stateDemo ["tl_1", "tl_2"] true 1 := by
  rw [Process_nonempty _ _ _ (by simp [stateDemo]), demo_loop_red]
  simp [stageDecision, stateDemo, cfgDemo]

/-- The loop on the boundary scenario: `tl_1` at the double 0.8, front edge at
the double 0.3, red, `max_valid_stop_distance` 0.5. The computed distance is
the double 0.5, so the crossing is within stop range. -/
theorem demo_loop_boundary_red (anchor : ℚ) :
    loopResult doubleSub (frameBoundary Color.RED) (stateBoundary anchor) =
      { traffic_light_all_stop := true
        traffic_light_all_green := false
        calls := [Call.ExecuteTaskOnReferenceLine, Call.GetOverlapOnReferenceLine "tl_1",
          Call.SetJunctionRightOfWay double_0_8 false, Call.GetSignal "tl_1"] } := by
  simp [loopResult, stateBoundary, frameBoundary, Process_loop, planCalls, doubleSub_0_8_0_3]

/-- A waiting cycle of the spec's scenario with right-turn-on-red off leaves
the state as it is. -/
theorem demo_disabled_cycle (t : ℚ) :
    (Process doubleSub t (frameDemo 9 Color.RED Color.GREEN)
        (stateDemo ["tl_1", "tl_2"] false 0)).state = stateDemo ["tl_1", "tl_2"] false 0 := by
  rw [Process_nonempty _ _ _ (by simp [stateDemo]), demo_loop_red]
  simp [stageDecision, stateDemo, cfgDemo]

/-- The cycle of the spec's scenario at clock reading 0.0 with no anchor held:
the state afterwards is the state before it, the recorded anchor being 0.0. -/
theorem demo_cycle_at_zero :
    (Process doubleSub 0 (frameDemo 9 Color.RED Color.GREEN)
        (stateDemo ["tl_1", "tl_2"] true 0)).state = stateDemo ["tl_1", "tl_2"] true 0 := by
  rw [Process_nonempty _ _ _ (by simp [stateDemo]), demo_loop_red]
  simp [stageDecision, stateDemo, cfgDemo]

theorem demo_assigns_at_zero :
    assignsAnchor doubleSub (frameDemo 9 Color.RED Color.GREEN)
      (stateDemo ["tl_1", "tl_2"] true 0) = true := by
  unfold assignsAnchor
  rw [demo_loop_red]
  simp [stateDemo, cfgDemo]

/-! ## The claims -/

/-- C1 as amended (timer property). With right-turn-on-red enabled, the loop
ending with `traffic_light_all_stop = true` and `traffic_light_all_green =
false`, and the context holding a non-zero anchor `a` (zero is the source's
encoding of "no anchor"), a cycle at time `now` returns `FINISHED` with next
stage `CREEP` when the wait `sub now a`, the difference the stage computes,
exceeds the configured duration, and returns `RUNNING` when it is at most the
duration. The active sequence is necessarily non-empty, the loop leaving both
variables `true` on an empty one. -/
theorem Process_wait_timer (now a : ℚ) (f : Frame) (st : State)
    (henable : st.context.scenario_config.enable_right_turn_on_red = true)
    (hstop : (loopResult sub f st).traffic_light_all_stop = true)
    (hgreen : (loopResult sub f st).traffic_light_all_green = false)
    (hanchor : st.context.stop_start_time = a) (hset : a ≠ 0) :
    (sub now a > st.context.scenario_config.red_light_right_turn_stop_duration_sec →
      (Process sub now f st).status = StageStatus.FINISHED ∧
      (Process sub now f st).state.next_stage_ =
        StageType.TRAFFIC_LIGHT_UNPROTECTED_RIGHT_TURN_CREEP) ∧
    (sub now a ≤ st.context.scenario_config.red_light_right_turn_stop_duration_sec →
      (Process sub now f st).status = StageStatus.RUNNING) := by
  have hne : st.context.current_traffic_light_overlap_ids ≠ [] := by
    intro h
    have := (@loopResult_nil sub f st h).2
    rw [hgreen] at this
    cases this
  rw [Process_nonempty now f st hne]
  subst hanchor
  constructor
  · intro h
    simp [stageDecision, hstop, hgreen, henable, hset, h, FinishStage]
  · intro h
    simp [stageDecision, hstop, hgreen, henable, hset, not_lt.mpr h]

/-- Witness for C1. On the spec's scenario the first cycle, at time 1, records
the anchor; with duration 5.0 the cycle at anchor + 6.0 returns `FINISHED`
with next stage `CREEP`. On the boundary scenario, with anchor the double 0.3
and duration 0.5, the cycle at the double 0.8 computes the wait 0.5, which
does not exceed the duration, and returns `RUNNING`. -/
theorem Process_wait_timer_witness :
    (Process doubleSub 7 (frameDemo 9 Color.RED Color.GREEN)
        (Process doubleSub 1 (frameDemo 9 Color.RED Color.GREEN)
          (stateDemo ["tl_1", "tl_2"] true 0)).state).status = StageStatus.FINISHED ∧
      (Process doubleSub 7 (frameDemo 9 Color.RED Color.GREEN)
        (Process doubleSub 1 (frameDemo 9 Color.RED Color.GREEN)
          (stateDemo ["tl_1", "tl_2"] true 0)).state).state.next_stage_ =
        StageType.TRAFFIC_LIGHT_UNPROTECTED_RIGHT_TURN_CREEP ∧
      (Process doubleSub double_0_8 (frameBoundary Color.RED)
        (stateBoundary double_0_3)).status = StageStatus.RUNNING :=
  have h := (Process_wait_timer 7 1 (frameDemo 9 Color.RED Color.GREEN)
    (Process doubleSub 1 (frameDemo 9 Color.RED Color.GREEN)
      (stateDemo ["tl_1", "tl_2"] true 0)).state
    (by rw [demo_first_cycle]; rfl)
    (by rw [demo_first_cycle, demo_loop_red])
    (by rw [demo_first_cycle, demo_loop_red])
    (by rw [demo_first_cycle]; rfl)
    (by norm_num)).1
    (by rw [demo_first_cycle]; norm_num [stateDemo, cfgDemo, doubleSub_7_1])
  have h2 := (Process_wait_timer double_0_8 double_0_3 (frameBoundary Color.RED)
    (stateBoundary double_0_3) rfl
    (by rw [demo_loop_boundary_red])
    (by rw [demo_loop_boundary_red])
    rfl
    (by norm_num [double_0_3])).2
    (by rw [doubleSub_0_8_0_3]; norm_num [stateBoundary])
  ⟨h.1, h.2, h2⟩

/-- C1, as stated, fails for an anchor recorded at clock reading 0.0. On the
spec's scenario with no anchor held, the cycle at clock reading 0.0 executes
the assignment of line 111 and leaves the anchor 0.0 in the context. At the
next cycle, at 1000.0, right-turn-on-red is enabled, the loop ends within stop
range and not all green, and the elapsed time 1000.0 exceeds the configured
5.0; yet the cycle returns `RUNNING`, line 110 reading the recorded 0.0 as "no
anchor". -/
theorem Process_wait_timer_counterexample :
    assignsAnchor doubleSub (frameDemo 9 Color.RED Color.GREEN)
        (stateDemo ["tl_1", "tl_2"] true 0) = true ∧
      (Process doubleSub 0 (frameDemo 9 Color.RED Color.GREEN)
        (stateDemo ["tl_1", "tl_2"] true 0)).state.context.stop_start_time = 0 ∧
      (Process doubleSub 0 (frameDemo 9 Color.RED Color.GREEN)
        (stateDemo ["tl_1", "tl_2"]
          true 0)).state.context.scenario_config.enable_right_turn_on_red = true ∧
      (loopResult doubleSub (frameDemo 9 Color.RED Color.GREEN)
        (Process doubleSub 0 (frameDemo 9 Color.RED Color.GREEN)
          (stateDemo ["tl_1", "tl_2"] true 0)).state).traffic_light_all_stop = true ∧
      (loopResult doubleSub (frameDemo 9 Color.RED Color.GREEN)
        (Process doubleSub 0 (frameDemo 9 Color.RED Color.GREEN)
          (stateDemo ["tl_1", "tl_2"] true 0)).state).traffic_light_all_green = false ∧
      doubleSub 1000 0 >
        (Process doubleSub 0 (frameDemo 9 Color.RED Color.GREEN)
          (stateDemo ["tl_1", "tl_2"]
            true 0)).state.context.scenario_config.red_light_right_turn_stop_duration_sec ∧
      (Process doubleSub 1000 (frameDemo 9 Color.RED Color.GREEN)
        (Process doubleSub 0 (frameDemo 9 Color.RED Color.GREEN)
          (stateDemo ["tl_1", "tl_2"] true 0)).state).status = StageStatus.RUNNING := by
  rw [demo_cycle_at_zero, demo_loop_red]
  refine ⟨demo_assigns_at_zero, rfl, rfl, rfl, rfl, ?_, ?_⟩
  · rw [doubleSub_1000_0]
    norm_num [stateDemo, cfgDemo]
  · rw [Process_nonempty _ _ _ (by simp [stateDemo]), demo_loop_red]
    simp [stageDecision, stateDemo, cfgDemo]

/-- C2 (green path). For a non-empty active sequence in which every identifier
resolves to a crossing within `max_valid_stop_distance` of the front edge (the
distance being the difference the stage computes) and every signal colour is
`GREEN`, the cycle returns `FINISHED` with next stage
`INTERSECTION_CRUISE`, whatever the policy switch, the wait duration, the
anchor and the clock reading are. -/
theorem Process_all_green (now : ℚ) (f : Frame) (st : State)
    (hne : st.context.current_traffic_light_overlap_ids ≠ [])
    (hrange : ∀ id ∈ st.context.current_traffic_light_overlap_ids,
      ∃ o, f.GetOverlapOnReferenceLine id = some o ∧
        sub o.start_s f.adc_front_edge_s ≤ st.context.scenario_config.max_valid_stop_distance)
    (hcolor : ∀ id ∈ st.context.current_traffic_light_overlap_ids,
      f.GetSignal id = Color.GREEN) :
    (Process sub now f st).status = StageStatus.FINISHED ∧
      (Process sub now f st).state.next_stage_ =
        StageType.TRAFFIC_LIGHT_UNPROTECTED_RIGHT_TURN_INTERSECTION_CRUISE := by
  have hpass := aggregate_all_pass f st.context.scenario_config.max_valid_stop_distance
    st.context.current_traffic_light_overlap_ids (by
      intro id hid o ho
      obtain ⟨o', ho', hd⟩ := hrange id hid
      rw [ho] at ho'
      cases ho'
      exact ⟨hd, hcolor id hid⟩)
  rw [Process_nonempty now f st hne]
  simp [stageDecision, loopResult_eq, hpass.1, hpass.2, FinishStage]

/-- Witness for C2: `tl_1` and `tl_2`, 1.0 and 2.0 ahead of the front edge,
both green, right-turn-on-red disabled. -/
theorem Process_all_green_witness :
    (Process doubleSub 3 (frameDemo 9 Color.GREEN Color.GREEN)
        (stateDemo ["tl_1", "tl_2"] false 0)).status = StageStatus.FINISHED ∧
      (Process doubleSub 3 (frameDemo 9 Color.GREEN Color.GREEN)
        (stateDemo ["tl_1", "tl_2"] false 0)).state.next_stage_ =
        StageType.TRAFFIC_LIGHT_UNPROTECTED_RIGHT_TURN_INTERSECTION_CRUISE :=
  Process_all_green 3 (frameDemo 9 Color.GREEN Color.GREEN) (stateDemo ["tl_1", "tl_2"] false 0)
    (by simp [stateDemo])
    (by simp [stateDemo, frameDemo, cfgDemo])
    (by simp [stateDemo, frameDemo])

/-- C3 (empty sequence). When the active sequence is empty at cycle entry the
cycle returns `FINISHED` with next stage `NO_STAGE`, the persisted
traffic-light status is cleared, and the cycle resolves no crossing, makes no
right-of-way update and looks up no colour; configuration, clock reading,
planner result and anchor are arbitrary. -/
theorem Process_empty_sequence (now : ℚ) (f : Frame) (st : State)
    (hempty : st.context.current_traffic_light_overlap_ids = []) :
    (Process sub now f st).status = StageStatus.FINISHED ∧
      (Process sub now f st).state.next_stage_ = StageType.NO_STAGE ∧
      (Process sub now f st).state.planning_status.traffic_light = none ∧
      resolutions (Process sub now f st).calls = [] ∧
      rightOfWayCalls (Process sub now f st).calls = [] ∧
      colorLookups (Process sub now f st).calls = [] := by
  rw [Process_empty now f st hempty]
  unfold FinishScenario planCalls
  split_ifs <;> simp [resolutions, rightOfWayCalls, colorLookups]

/-- Witness for C3: an empty active sequence with a failed planner run and a
stale persisted done-list. -/
theorem Process_empty_sequence_witness :
    (Process doubleSub 3 { frameDemo 9 Color.RED Color.RED with plan_ok := false }
        (stateDemo [] true 1)).state.planning_status.traffic_light = none :=
  (Process_empty_sequence 3 { frameDemo 9 Color.RED Color.RED with plan_ok := false }
    (stateDemo [] true 1) rfl).2.2.1

/-- C4 (out of stop range). Consecutive cycles, at arbitrary clock readings, on
frames for each of which the loop over the state's active sequence ends with
`traffic_light_all_stop = false`: every cycle returns `RUNNING`, one outcome
per cycle, whatever the policy switch, the wait duration and the anchor are;
and each such cycle taken alone from the initial state returns `RUNNING`. -/
theorem Process_out_of_range (cycles : List (ℚ × Frame)) (st : State)
    (hfar : ∀ c ∈ cycles, (loopResult sub c.2 st).traffic_light_all_stop = false) :
    (∀ o ∈ runCycles sub cycles st, o.status = StageStatus.RUNNING) ∧
      (runCycles sub cycles st).length = cycles.length ∧
      (∀ c ∈ cycles, (Process sub c.1 c.2 st).status = StageStatus.RUNNING) := by
  refine ⟨?_, runCycles_length cycles st, ?_⟩
  · induction cycles generalizing st with
    | nil => simp [runCycles]
    | cons c rest ih =>
      obtain ⟨now, f⟩ := c
      have hc := hfar (now, f) (List.mem_cons_self _ _)
      have hP := Process_not_stop now f st hc
      intro o ho
      simp only [runCycles, List.mem_cons] at ho
      rcases ho with ho | ho
      · rw [ho, hP]
      · refine ih (Process sub now f st).state ?_ o ho
        intro c' hc'
        rw [loopResult_congr c'.2 st (Process sub now f st).state (by rw [hP])]
        exact hfar c' (List.mem_cons_of_mem _ hc')
  · intro c hc
    rw [Process_not_stop c.1 c.2 st (hfar c hc)]

/-- Witness for C4: active sequence `[tl_1]`, stop line 5.0 ahead of the front
edge, `max_valid_stop_distance` 2.0, three cycles at increasing times with
right-turn-on-red enabled and an anchor in the past. -/
theorem Process_out_of_range_witness :
    (runCycles doubleSub
        [(1, frameDemo 5 Color.RED Color.RED), (50, frameDemo 5 Color.GREEN Color.RED),
        (1000, frameDemo 5 Color.RED Color.RED)] (stateDemo ["tl_1"] true 1)).length = 3 ∧
      (Process doubleSub 1000 (frameDemo 5 Color.RED Color.RED)
        (stateDemo ["tl_1"] true 1)).status = StageStatus.RUNNING :=
  have h := Process_out_of_range
    [(1, frameDemo 5 Color.RED Color.RED), (50, frameDemo 5 Color.GREEN Color.RED),
      (1000, frameDemo 5 Color.RED Color.RED)] (stateDemo ["tl_1"] true 1)
    (by
      simp [loopResult, stateDemo, frameDemo, cfgDemo, Process_loop, planCalls]
      norm_num)
  ⟨h.2.1, h.2.2 (1000, frameDemo 5 Color.RED Color.RED) (by simp)⟩

/-- C5 (right-turn-on-red disabled). With `enable_right_turn_on_red` false, for
every active sequence, anchor and clock reading, the cycle does not return
`FINISHED` with next stage `CREEP`, makes no write (`Clear`, `add`) to the
persisted done-list, leaves `creep_start_time` unchanged, and on a non-empty
sequence leaves the whole persisted status unchanged. -/
theorem Process_red_turn_disabled (now : ℚ) (f : Frame) (st : State)
    (hoff : st.context.scenario_config.enable_right_turn_on_red = false) :
    ¬ ((Process sub now f st).status = StageStatus.FINISHED ∧
        (Process sub now f st).state.next_stage_ =
          StageType.TRAFFIC_LIGHT_UNPROTECTED_RIGHT_TURN_CREEP) ∧
      doneListWrites (Process sub now f st).calls = [] ∧
      (Process sub now f st).state.context.creep_start_time = st.context.creep_start_time ∧
      (st.context.current_traffic_light_overlap_ids ≠ [] →
        (Process sub now f st).state.planning_status = st.planning_status) := by
  by_cases hne : st.context.current_traffic_light_overlap_ids = []
  · rw [Process_empty now f st hne]
    simp [FinishScenario, doneListWrites_append, doneListWrites_planCalls, hne]
    simp [doneListWrites]
  · rw [Process_nonempty now f st hne]
    have hw := @doneListWrites_loopResult sub f st
    simp only [stageDecision, hoff, Bool.false_eq_true, if_false]
    split_ifs <;> simp [FinishStage, hw]

/-- Witness for C5: within stop range, `tl_1` red, the anchor 999 s in the
past, right-turn-on-red disabled. -/
theorem Process_red_turn_disabled_witness :
    ¬ ((Process doubleSub 1000 (frameDemo 9 Color.RED Color.GREEN)
          (stateDemo ["tl_1", "tl_2"] false 1)).status = StageStatus.FINISHED ∧
        (Process doubleSub 1000 (frameDemo 9 Color.RED Color.GREEN)
          (stateDemo ["tl_1", "tl_2"] false 1)).state.next_stage_ =
          StageType.TRAFFIC_LIGHT_UNPROTECTED_RIGHT_TURN_CREEP) :=
  (Process_red_turn_disabled 1000 (frameDemo 9 Color.RED Color.GREEN)
    (stateDemo ["tl_1", "tl_2"] false 1) rfl).1

/-- C6 (short circuit). The active sequence is `pre ++ A :: post`, every
resolvable identifier of `pre` passes both checks, and `A` resolves to a
crossing. If `A` fails the distance check, the loop ends with
`traffic_light_all_stop = false` and `traffic_light_all_green = true`; if `A`
passes the distance check and its colour is not `GREEN`, the loop ends with
`traffic_light_all_stop = true` and `traffic_light_all_green = false`. In both
cases the identifiers resolved in the cycle are exactly `pre ++ [A]` and the
colours looked up are those of the resolvable identifiers of `pre` and of `A`:
nothing after `A` is resolved or looked up. -/
theorem Process_short_circuit (now : ℚ) (f : Frame) (st : State)
    (pre post : List String) (A : String) (o : PathOverlap)
    (hids : st.context.current_traffic_light_overlap_ids = pre ++ A :: post)
    (hpre : ∀ id ∈ pre, ∀ p, f.GetOverlapOnReferenceLine id = some p →
      sub p.start_s f.adc_front_edge_s ≤ st.context.scenario_config.max_valid_stop_distance ∧
        f.GetSignal id = Color.GREEN)
    (hA : f.GetOverlapOnReferenceLine A = some o) :
    (sub o.start_s f.adc_front_edge_s > st.context.scenario_config.max_valid_stop_distance →
      (loopResult sub f st).traffic_light_all_stop = false ∧
      (loopResult sub f st).traffic_light_all_green = true ∧
      resolutions (Process sub now f st).calls = pre ++ [A] ∧
      colorLookups (Process sub now f st).calls = resolvableIds f pre ++ [A]) ∧
    (sub o.start_s f.adc_front_edge_s ≤ st.context.scenario_config.max_valid_stop_distance →
      f.GetSignal A ≠ Color.GREEN →
      (loopResult sub f st).traffic_light_all_stop = true ∧
      (loopResult sub f st).traffic_light_all_green = false ∧
      resolutions (Process sub now f st).calls = pre ++ [A] ∧
      colorLookups (Process sub now f st).calls = resolvableIds f pre ++ [A]) := by
  obtain ⟨h1, h2, h3, h4⟩ := aggregate_append_pass f
    st.context.scenario_config.max_valid_stop_distance pre (A :: post) hpre
  rw [resolutions_Process, colorLookups_Process, loopResult_eq, hids]
  simp only [h1, h2, h3, h4]
  constructor
  · intro hd
    rw [aggregate_cons_far f _ A post o hA hd]
    simp [resolutions, colorLookups]
  · intro hd hc
    rw [aggregate_cons_not_green f _ A post o hA (not_lt.mpr hd) hc]
    simp [resolutions, colorLookups]

/-- Witness for C6 on the spec's scenario: active `[tl_1, tl_2]`, front edge
9.0, `tl_1` at 10.0 and red, `max_valid_stop_distance` 2.0: the loop ends with
`(true, false)` and only `tl_1` is resolved and looked up. -/
theorem Process_short_circuit_witness :
    (loopResult doubleSub (frameDemo 9 Color.RED Color.GREEN)
        (stateDemo ["tl_1", "tl_2"] true 0)).traffic_light_all_stop = true ∧
      (loopResult doubleSub (frameDemo 9 Color.RED Color.GREEN)
        (stateDemo ["tl_1", "tl_2"] true 0)).traffic_light_all_green = false ∧
      resolutions (Process doubleSub 1 (frameDemo 9 Color.RED Color.GREEN)
        (stateDemo ["tl_1", "tl_2"] true 0)).calls = ["tl_1"] ∧
      colorLookups (Process doubleSub 1 (frameDemo 9 Color.RED Color.GREEN)
        (stateDemo ["tl_1", "tl_2"] true 0)).calls = ["tl_1"] :=
  (Process_short_circuit 1 (frameDemo 9 Color.RED Color.GREEN)
    (stateDemo ["tl_1", "tl_2"] true 0) [] ["tl_2"] "tl_1" { start_s := 10 }
    rfl (by simp) (by simp [frameDemo])).2
    (by simp [frameDemo, stateDemo, cfgDemo]) (by simp [frameDemo])

theorem rightOfWayCalls_aggregate (f : Frame) (m : ℚ) (ids : List String) :
    rightOfWayCalls (aggregate sub f m ids).calls = expectedRightOfWay sub f m ids := by
  induction ids with
  | nil => simp [aggregate_nil, rightOfWayCalls, expectedRightOfWay, visitedIds]
  | cons id rest ih =>
    unfold expectedRightOfWay at ih ⊢
    cases hov : f.GetOverlapOnReferenceLine id with
    | none =>
      rw [aggregate_cons_none f m id rest hov]
      simp only [visitedIds, failsCheck, hov]
      simpa [rightOfWayCalls, hov] using ih
    | some o =>
      by_cases hd : sub o.start_s f.adc_front_edge_s > m
      · rw [aggregate_cons_far f m id rest o hov hd]
        simp [visitedIds, failsCheck, hov, hd, rightOfWayCalls]
      · by_cases hc : f.GetSignal id = Color.GREEN
        · rw [aggregate_cons_pass f m id rest o hov hd hc]
          simp only [visitedIds, failsCheck, hov]
          simpa [rightOfWayCalls, hov, hd, hc] using ih
        · rw [aggregate_cons_not_green f m id rest o hov hd hc]
          simp [visitedIds, failsCheck, hov, hd, hc, rightOfWayCalls]

/-- C7 (right-of-way side effects). The `SetJunctionRightOfWay` calls of a
cycle are, in order, `(start_s, false)` for each resolvable crossing of the
active sequence up to and including the first resolvable crossing that fails
the distance or the colour check (all resolvable crossings if none fails);
later crossings and unresolvable identifiers get no call. On an empty
sequence both sides are empty. -/
theorem Process_right_of_way (now : ℚ) (f : Frame) (st : State) :
    rightOfWayCalls (Process sub now f st).calls =
      expectedRightOfWay sub f st.context.scenario_config.max_valid_stop_distance
        st.context.current_traffic_light_overlap_ids := by
  rw [rightOfWayCalls_Process, rightOfWayCalls_aggregate]

/-- C8 (done-list on creep). Whenever a cycle returns `FINISHED` with next
stage `CREEP`, the persisted done-list afterwards is exactly the active
sequence, whatever it held before, and `creep_start_time` is the cycle's clock
reading. -/
theorem Process_creep_done_list (now : ℚ) (f : Frame) (st : State)
    (hfin : (Process sub now f st).status = StageStatus.FINISHED)
    (hnext : (Process sub now f st).state.next_stage_ =
      StageType.TRAFFIC_LIGHT_UNPROTECTED_RIGHT_TURN_CREEP) :
    (Process sub now f st).state.planning_status.traffic_light =
        some { done_traffic_light_overlap_id := st.context.current_traffic_light_overlap_ids } ∧
      (Process sub now f st).state.context.creep_start_time = now := by
  by_cases hne : st.context.current_traffic_light_overlap_ids = []
  · rw [Process_empty now f st hne] at hnext
    simp [FinishScenario] at hnext
  · rw [Process_nonempty now f st hne] at hfin hnext ⊢
    unfold stageDecision at hfin hnext ⊢
    split_ifs at hfin hnext ⊢
    · simp [FinishStage] at hnext
    · simp [FinishStage, FinishStage_loop_eq]

/-- Witness for C8 on the spec's scenario: active `[tl_1, tl_2]`, `tl_1` red,
anchor 1, cycle at time 7 with duration 5.0; the stale done-list `[old]` is
replaced by `[tl_1, tl_2]`. -/
theorem Process_creep_done_list_witness :
    (Process doubleSub 7 (frameDemo 9 Color.RED Color.GREEN)
        (stateDemo ["tl_1", "tl_2"] true 1)).state.planning_status.traffic_light =
        some { done_traffic_light_overlap_id := ["tl_1", "tl_2"] } ∧
      (Process doubleSub 7 (frameDemo 9 Color.RED Color.GREEN)
        (stateDemo ["tl_1", "tl_2"] true 1)).state.context.creep_start_time = 7 :=
  Process_creep_done_list 7 (frameDemo 9 Color.RED Color.GREEN)
    (stateDemo ["tl_1", "tl_2"] true 1)
    (by rw [Process_nonempty _ _ _ (by simp [stateDemo]), demo_loop_red]
        simp [stageDecision, stateDemo, cfgDemo, FinishStage, doubleSub_7_1]
        norm_num)
    (by rw [Process_nonempty _ _ _ (by simp [stateDemo]), demo_loop_red]
        simp [stageDecision, stateDemo, cfgDemo, FinishStage, doubleSub_7_1]
        norm_num)

/-- C9 (first wait cycle). With right-turn-on-red enabled, the loop ending
with `traffic_light_all_stop = true` and `traffic_light_all_green = false`, and
no anchor recorded at entry (`stop_start_time = 0`), the cycle sets
`stop_start_time` to the clock reading and returns `RUNNING`, whatever the
configured wait duration is (zero and negative durations included). -/
theorem Process_first_wait_cycle (now : ℚ) (f : Frame) (st : State)
    (henable : st.context.scenario_config.enable_right_turn_on_red = true)
    (hstop : (loopResult sub f st).traffic_light_all_stop = true)
    (hgreen : (loopResult sub f st).traffic_light_all_green = false)
    (hunset : st.context.stop_start_time = 0) :
    (Process sub now f st).state.context.stop_start_time = now ∧
      (Process sub now f st).status = StageStatus.RUNNING := by
  have hne : st.context.current_traffic_light_overlap_ids ≠ [] := by
    intro h
    have := (@loopResult_nil sub f st h).2
    rw [hgreen] at this
    cases this
  rw [Process_nonempty now f st hne]
  simp [stageDecision, hstop, hgreen, henable, hunset]

/-- Witness for C9 on the spec's scenario with a negative wait duration: the
first cycle, at time 4, records the anchor 4 and returns `RUNNING`. -/
theorem Process_first_wait_cycle_witness :
    (Process doubleSub 4 (frameDemo 9 Color.RED Color.GREEN)
        { stateDemo ["tl_1", "tl_2"] true 0 with
          context := { (stateDemo ["tl_1", "tl_2"] true 0).context with
            scenario_config := { cfgDemo true with
              red_light_right_turn_stop_duration_sec := -3 } } }).state.context.stop_start_time
        = 4 ∧
      (Process doubleSub 4 (frameDemo 9 Color.RED Color.GREEN)
        { stateDemo ["tl_1", "tl_2"] true 0 with
          context := { (stateDemo ["tl_1", "tl_2"] true 0).context with
            scenario_config := { cfgDemo true with
              red_light_right_turn_stop_duration_sec := -3 } } }).status
        = StageStatus.RUNNING :=
  Process_first_wait_cycle 4 (frameDemo 9 Color.RED Color.GREEN)
    { stateDemo ["tl_1", "tl_2"] true 0 with
      context := { (stateDemo ["tl_1", "tl_2"] true 0).context with
        scenario_config := { cfgDemo true with
          red_light_right_turn_stop_duration_sec := -3 } } }
    rfl
    (by simp [loopResult, stateDemo, frameDemo, cfgDemo, Process_loop, planCalls])
    (by simp [loopResult, stateDemo, frameDemo, cfgDemo, Process_loop, planCalls])
    rfl

theorem demo_right_of_way :
    expectedRightOfWay doubleSub (frameDemo 9 Color.RED Color.GREEN) 2 ["ghost", "tl_1", "tl_2"] =
      [(10, false)] := by
  simp [expectedRightOfWay, visitedIds, failsCheck, frameDemo]

theorem aggregate_resolvable (f : Frame) (m : ℚ) (ids : List String) :
    (aggregate sub f m (resolvableIds f ids)).traffic_light_all_stop =
        (aggregate sub f m ids).traffic_light_all_stop ∧
      (aggregate sub f m (resolvableIds f ids)).traffic_light_all_green =
        (aggregate sub f m ids).traffic_light_all_green ∧
      rightOfWayCalls (aggregate sub f m (resolvableIds f ids)).calls =
        rightOfWayCalls (aggregate sub f m ids).calls ∧
      colorLookups (aggregate sub f m (resolvableIds f ids)).calls =
        colorLookups (aggregate sub f m ids).calls := by
  induction ids with
  | nil => simp [resolvableIds]
  | cons id rest ih =>
    obtain ⟨i1, i2, i3, i4⟩ := ih
    cases hov : f.GetOverlapOnReferenceLine id with
    | none =>
      have hr : resolvableIds f (id :: rest) = resolvableIds f rest := by
        simp [resolvableIds, hov]
      rw [hr, aggregate_cons_none f m id rest hov]
      refine ⟨i1, i2, ?_, ?_⟩
      · simpa [rightOfWayCalls] using i3
      · simpa [colorLookups] using i4
    | some o =>
      have hr : resolvableIds f (id :: rest) = id :: resolvableIds f rest := by
        simp [resolvableIds, hov]
      rw [hr]
      by_cases hd : sub o.start_s f.adc_front_edge_s > m
      · rw [aggregate_cons_far f m id rest o hov hd, aggregate_cons_far f m id _ o hov hd]
        simp
      · by_cases hc : f.GetSignal id = Color.GREEN
        · rw [aggregate_cons_pass f m id rest o hov hd hc,
            aggregate_cons_pass f m id _ o hov hd hc]
          refine ⟨i1, i2, ?_, ?_⟩
          · simpa [rightOfWayCalls] using i3
          · simpa [colorLookups] using i4
        · rw [aggregate_cons_not_green f m id rest o hov hd hc,
            aggregate_cons_not_green f m id _ o hov hd hc]
          simp

/-- C10 (unresolvable identifiers are transparent). For an active sequence
with at least one resolvable identifier, a cycle on the sequence and a cycle
on the sequence with every unresolvable identifier removed end the loop with
the same two booleans, make the same right-of-way calls and the same colour
lookups, return the same status and next stage, and leave the same cached
configuration, shared configuration, anchor and `creep_start_time`. The
persisted status afterwards is the same unless the cycle returns `FINISHED`
with next stage `CREEP`, in which case the done-list of each run is its own
active sequence. -/
theorem Process_unresolvable_transparent (now : ℚ) (f : Frame) (st : State)
    (hres : ∃ id ∈ st.context.current_traffic_light_overlap_ids,
      (f.GetOverlapOnReferenceLine id).isSome = true) :
    (loopResult sub f (dropUnresolvable f st)).traffic_light_all_stop =
        (loopResult sub f st).traffic_light_all_stop ∧
      (loopResult sub f (dropUnresolvable f st)).traffic_light_all_green =
        (loopResult sub f st).traffic_light_all_green ∧
      rightOfWayCalls (Process sub now f (dropUnresolvable f st)).calls =
        rightOfWayCalls (Process sub now f st).calls ∧
      colorLookups (Process sub now f (dropUnresolvable f st)).calls =
        colorLookups (Process sub now f st).calls ∧
      (Process sub now f (dropUnresolvable f st)).status = (Process sub now f st).status ∧
      (Process sub now f (dropUnresolvable f st)).state.next_stage_ =
        (Process sub now f st).state.next_stage_ ∧
      (Process sub now f (dropUnresolvable f st)).state.scenario_config_ =
        (Process sub now f st).state.scenario_config_ ∧
      (Process sub now f (dropUnresolvable f st)).state.context.scenario_config =
        (Process sub now f st).state.context.scenario_config ∧
      (Process sub now f (dropUnresolvable f st)).state.context.stop_start_time =
        (Process sub now f st).state.context.stop_start_time ∧
      (Process sub now f (dropUnresolvable f st)).state.context.creep_start_time =
        (Process sub now f st).state.context.creep_start_time ∧
      (¬ ((Process sub now f st).status = StageStatus.FINISHED ∧
          (Process sub now f st).state.next_stage_ =
            StageType.TRAFFIC_LIGHT_UNPROTECTED_RIGHT_TURN_CREEP) →
        (Process sub now f (dropUnresolvable f st)).state.planning_status =
          (Process sub now f st).state.planning_status) ∧
      ((Process sub now f st).status = StageStatus.FINISHED ∧
          (Process sub now f st).state.next_stage_ =
            StageType.TRAFFIC_LIGHT_UNPROTECTED_RIGHT_TURN_CREEP →
        (Process sub now f st).state.planning_status.traffic_light =
          some { done_traffic_light_overlap_id :=
            st.context.current_traffic_light_overlap_ids } ∧
        (Process sub now f (dropUnresolvable f st)).state.planning_status.traffic_light =
          some { done_traffic_light_overlap_id :=
            resolvableIds f st.context.current_traffic_light_overlap_ids }) := by
  obtain ⟨id, hid, hsome⟩ := hres
  have hne : st.context.current_traffic_light_overlap_ids ≠ [] := by
    intro h
    rw [h] at hid
    cases hid
  have hne' : (dropUnresolvable f st).context.current_traffic_light_overlap_ids ≠ [] := by
    intro h
    have hmem : id ∈ resolvableIds f st.context.current_traffic_light_overlap_ids :=
      List.mem_filter.mpr ⟨hid, hsome⟩
    have h' : resolvableIds f st.context.current_traffic_light_overlap_ids = [] := h
    rw [h'] at hmem
    cases hmem
  obtain ⟨a1, a2, a3, a4⟩ := aggregate_resolvable f
    st.context.scenario_config.max_valid_stop_distance
    st.context.current_traffic_light_overlap_ids
  have hs : (loopResult sub f (dropUnresolvable f st)).traffic_light_all_stop =
      (loopResult sub f st).traffic_light_all_stop := by
    rw [loopResult_eq, loopResult_eq]
    exact a1
  have hg : (loopResult sub f (dropUnresolvable f st)).traffic_light_all_green =
      (loopResult sub f st).traffic_light_all_green := by
    rw [loopResult_eq, loopResult_eq]
    exact a2
  refine ⟨hs, hg, ?_, ?_, ?_⟩
  · rw [rightOfWayCalls_Process, rightOfWayCalls_Process]
    exact a3
  · rw [colorLookups_Process, colorLookups_Process]
    exact a4
  · rw [Process_nonempty now f st hne, Process_nonempty now f _ hne']
    unfold stageDecision
    rw [hs, hg]
    simp only [dropUnresolvable]
    cases (loopResult sub f st).traffic_light_all_stop <;>
      cases (loopResult sub f st).traffic_light_all_green <;>
      simp [FinishStage, FinishStage_loop_eq]
    all_goals split_ifs <;> simp [FinishStage, FinishStage_loop_eq]

/-- Witness for C10: the sequence `[ghost, tl_1, tl_2]`, `ghost` unresolvable,
against `[tl_1, tl_2]`, on the spec's scenario at anchor + 6.0. -/
theorem Process_unresolvable_transparent_witness :
    (Process doubleSub 7 (frameDemo 9 Color.RED Color.GREEN)
        (dropUnresolvable (frameDemo 9 Color.RED Color.GREEN)
          (stateDemo ["ghost", "tl_1", "tl_2"] true 1))).status =
      (Process doubleSub 7 (frameDemo 9 Color.RED Color.GREEN)
        (stateDemo ["ghost", "tl_1", "tl_2"] true 1)).status :=
  (Process_unresolvable_transparent 7 (frameDemo 9 Color.RED Color.GREEN)
    (stateDemo ["ghost", "tl_1", "tl_2"] true 1)
    ⟨"tl_1", by simp [stateDemo], by simp [frameDemo]⟩).2.2.2.2.1

/-! ## The wait anchor -/

/-- The anchor after a cycle: the clock reading when the cycle executes the
assignment of line 111, the value at entry otherwise. -/
theorem Process_stop_start_time (now : ℚ) (f : Frame) (st : State) :
    (Process sub now f st).state.context.stop_start_time =
      if assignsAnchor sub f st = true then now else st.context.stop_start_time := by
  by_cases hne : st.context.current_traffic_light_overlap_ids = []
  · rw [Process_empty now f st hne]
    simp [FinishScenario, assignsAnchor, hne]
  · rw [Process_nonempty now f st hne]
    unfold stageDecision assignsAnchor
    cases (loopResult sub f st).traffic_light_all_stop <;>
      cases (loopResult sub f st).traffic_light_all_green <;>
      cases hen : st.context.scenario_config.enable_right_turn_on_red <;>
      simp [FinishStage, hne, hen]
    split_ifs <;> simp

/-- A cycle that does not assign the anchor leaves the shared configuration
and the active sequence as they are; so does one that assigns it. -/
theorem Process_context_frame (now : ℚ) (f : Frame) (st : State) :
    (Process sub now f st).state.context.scenario_config = st.context.scenario_config ∧
      (Process sub now f st).state.context.current_traffic_light_overlap_ids =
        st.context.current_traffic_light_overlap_ids := by
  by_cases hne : st.context.current_traffic_light_overlap_ids = []
  · rw [Process_empty now f st hne]
    simp [FinishScenario]
  · rw [Process_nonempty now f st hne]
    unfold stageDecision
    split_ifs <;> simp [FinishStage]

theorem loopResult_Process (now : ℚ) (f g : Frame) (st : State) :
    loopResult sub g (Process sub now f st).state = loopResult sub g st := by
  obtain ⟨h1, h2⟩ := Process_context_frame now f st
  unfold loopResult
  rw [h1, h2]

theorem colorLookups_aggregate (f : Frame) (m : ℚ) (ids : List String) :
    colorLookups (aggregate sub f m ids).calls = resolvableIds f (visitedIds sub f m ids) := by
  induction ids with
  | nil => simp [aggregate_nil, colorLookups, resolvableIds, visitedIds]
  | cons id rest ih =>
    unfold resolvableIds at ih ⊢
    cases hov : f.GetOverlapOnReferenceLine id with
    | none =>
      rw [aggregate_cons_none f m id rest hov]
      simp only [visitedIds, failsCheck, hov]
      simpa [colorLookups, hov] using ih
    | some o =>
      by_cases hd : sub o.start_s f.adc_front_edge_s > m
      · rw [aggregate_cons_far f m id rest o hov hd]
        simp [visitedIds, failsCheck, hov, hd, colorLookups]
      · by_cases hc : f.GetSignal id = Color.GREEN
        · rw [aggregate_cons_pass f m id rest o hov hd hc]
          simp only [visitedIds, failsCheck, hov]
          simpa [colorLookups, hov, hd, hc] using ih
        · rw [aggregate_cons_not_green f m id rest o hov hd hc]
          simp [visitedIds, failsCheck, hov, hd, hc, colorLookups]

/-- C11, as stated, fails: with active sequence `[tl_1]`, the stop line 5.0
ahead of the front edge and `max_valid_stop_distance` 2.0, `tl_1` fails the
distance check and its colour is looked up all the same, so the colour lookups
of the cycle are not the visited crossings within stop range. -/
theorem Process_color_lookups_counterexample :
    withinStopRange doubleSub (frameDemo 5 Color.RED Color.RED) 2 "tl_1" = false ∧
      colorLookups (Process doubleSub 1 (frameDemo 5 Color.RED Color.RED)
        (stateDemo ["tl_1"] true 0)).calls = ["tl_1"] ∧
      colorLookups (Process doubleSub 1 (frameDemo 5 Color.RED Color.RED)
        (stateDemo ["tl_1"] true 0)).calls ≠
        lookupsAfterDistanceCheck doubleSub (frameDemo 5 Color.RED Color.RED)
          (stateDemo ["tl_1"] true 0).context.scenario_config.max_valid_stop_distance
          (stateDemo ["tl_1"] true 0).context.current_traffic_light_overlap_ids := by
  have h1 : withinStopRange doubleSub (frameDemo 5 Color.RED Color.RED) 2 "tl_1" = false := by
    simp [withinStopRange, frameDemo]
    norm_num
  have h2 : colorLookups (Process doubleSub 1 (frameDemo 5 Color.RED Color.RED)
      (stateDemo ["tl_1"] true 0)).calls = ["tl_1"] := by
    rw [colorLookups_Process, colorLookups_aggregate]
    simp [resolvableIds, visitedIds, failsCheck, stateDemo, frameDemo]
  refine ⟨h1, h2, ?_⟩
  rw [h2]
  simp [lookupsAfterDistanceCheck, visitedIds, failsCheck, stateDemo, cfgDemo, h1]

/-- C11 as amended (order of colour lookup and distance check). The colour of
every visited resolvable crossing is looked up, the one that fails the
distance check included (the colour is read at line 82, before the distance
check of line 89): the identifiers whose colour is looked up in a cycle are,
in order, exactly the resolvable identifiers among those visited. -/
theorem Process_color_lookups (now : ℚ) (f : Frame) (st : State) :
    colorLookups (Process sub now f st).calls =
      resolvableIds f
        (visitedIds sub f st.context.scenario_config.max_valid_stop_distance
          st.context.current_traffic_light_overlap_ids) := by
  rw [colorLookups_Process, colorLookups_aggregate]

theorem Process_loop_plan_ok (f : Frame) (b : Bool) (m : ℚ) (ids : List String)
    (v : LoopVars) :
    Process_loop sub { f with plan_ok := b } m ids v = Process_loop sub f m ids v := by
  induction ids generalizing v with
  | nil => simp [Process_loop]
  | cons id rest ih => simp [Process_loop, ih]

/-- The status and the state chosen in lines 102-125 depend on the loop's
variables through the two booleans only. -/
theorem stageDecision_flags (now : ℚ) (st : State) (v w : LoopVars)
    (hs : v.traffic_light_all_stop = w.traffic_light_all_stop)
    (hg : v.traffic_light_all_green = w.traffic_light_all_green) :
    (stageDecision sub now st v).status = (stageDecision sub now st w).status ∧
      (stageDecision sub now st v).state = (stageDecision sub now st w).state := by
  unfold stageDecision
  rw [hs, hg]
  split_ifs <;> simp [FinishStage, FinishStage_loop_eq]

/-- A non-empty sequence all of whose identifiers resolve within stop range
and show green finishes with next stage `INTERSECTION_CRUISE` (shared by the
claims that need a concrete cruise cycle). -/
theorem Process_all_green_of_pass (now : ℚ) (f : Frame) (st : State)
    (hne : st.context.current_traffic_light_overlap_ids ≠ [])
    (hpass : ∀ id ∈ st.context.current_traffic_light_overlap_ids,
      ∀ o, f.GetOverlapOnReferenceLine id = some o →
        sub o.start_s f.adc_front_edge_s ≤ st.context.scenario_config.max_valid_stop_distance ∧
          f.GetSignal id = Color.GREEN) :
    (Process sub now f st).status = StageStatus.FINISHED ∧
      (Process sub now f st).state.next_stage_ =
        StageType.TRAFFIC_LIGHT_UNPROTECTED_RIGHT_TURN_INTERSECTION_CRUISE := by
  have hp := aggregate_all_pass f st.context.scenario_config.max_valid_stop_distance
    st.context.current_traffic_light_overlap_ids hpass
  rw [Process_nonempty now f st hne]
  simp [stageDecision, loopResult_eq, hp.1, hp.2, FinishStage]

/-- C13 (planner independence). Two cycles that differ only in the result
reported by `ExecuteTaskOnReferenceLine` return the same status and leave the
same state (next stage, anchor, `creep_start_time`, persisted status) and
make the same right-of-way calls. In particular a cycle whose planning failed
can return `FINISHED` with next stage `INTERSECTION_CRUISE`, and a cycle whose
planning succeeded can return `RUNNING`. -/
theorem Process_planner_independent (now : ℚ) (f : Frame) (st : State) (b : Bool) :
    ((Process sub now { f with plan_ok := b } st).status = (Process sub now f st).status ∧
      (Process sub now { f with plan_ok := b } st).state = (Process sub now f st).state ∧
      rightOfWayCalls (Process sub now { f with plan_ok := b } st).calls =
        rightOfWayCalls (Process sub now f st).calls) ∧
    (∃ t g s, g.plan_ok = false ∧ (Process sub t g s).status = StageStatus.FINISHED ∧
      (Process sub t g s).state.next_stage_ =
        StageType.TRAFFIC_LIGHT_UNPROTECTED_RIGHT_TURN_INTERSECTION_CRUISE) ∧
    (∃ t g s, g.plan_ok = true ∧ (Process sub t g s).status = StageStatus.RUNNING) := by
  refine ⟨⟨?_, ?_, ?_⟩, ?_, ?_⟩
  · by_cases hne : st.context.current_traffic_light_overlap_ids = []
    · rw [Process_empty now f st hne, Process_empty now _ st hne]
      rfl
    · rw [Process_nonempty now f st hne, Process_nonempty now _ st hne]
      refine (stageDecision_flags now _ _ _ ?_ ?_).1 <;>
        simp [loopResult, Process_loop_plan_ok, Process_loop_eq f]
  · by_cases hne : st.context.current_traffic_light_overlap_ids = []
    · rw [Process_empty now f st hne, Process_empty now _ st hne]
      rfl
    · rw [Process_nonempty now f st hne, Process_nonempty now _ st hne]
      refine (stageDecision_flags now _ _ _ ?_ ?_).2 <;>
        simp [loopResult, Process_loop_plan_ok, Process_loop_eq f]
  · rw [rightOfWayCalls_Process, rightOfWayCalls_Process]
    simp [aggregate, Process_loop_plan_ok]
  · refine ⟨3, { frameDemo 9 Color.RED Color.RED with plan_ok := false },
      stateDemo ["ghost_1"] true 0, rfl, ?_⟩
    refine Process_all_green_of_pass 3 _ _ (by simp [stateDemo]) ?_
    simp [stateDemo, frameDemo]
  · refine ⟨3, frameDemo 9 Color.RED Color.RED, stateDemo ["tl_1"] false 0, rfl, ?_⟩
    rw [Process_nonempty _ _ _ (by simp [stateDemo]), loopResult_eq]
    have hov : (frameDemo 9 Color.RED Color.RED).GetOverlapOnReferenceLine "tl_1" =
        some { start_s := 10 } := by simp [frameDemo]
    have hc : (frameDemo 9 Color.RED Color.RED).GetSignal "tl_1" ≠ Color.GREEN := by
      simp [frameDemo]
    have hids : (stateDemo ["tl_1"] false 0).context.current_traffic_light_overlap_ids =
        ["tl_1"] := rfl
    rw [hids]
    by_cases hd : sub 10 (frameDemo 9 Color.RED Color.RED).adc_front_edge_s >
        (stateDemo ["tl_1"] false 0).context.scenario_config.max_valid_stop_distance
    · rw [aggregate_cons_far _ _ "tl_1" [] _ hov hd]
      simp [stageDecision]
    · rw [aggregate_cons_not_green _ _ "tl_1" [] _ hov hd hc]
      simp [stageDecision, stateDemo, cfgDemo]

/-- C14 (anchor untouched off the wait path). In a cycle in which "within
stop range and not all green" is false, that is on an empty sequence, or when
the loop ends with `traffic_light_all_stop = false`, or with both booleans
`true`, `stop_start_time` is the same after the cycle as before it. -/
theorem Process_anchor_untouched (now : ℚ) (f : Frame) (st : State)
    (h : st.context.current_traffic_light_overlap_ids = [] ∨
      (loopResult sub f st).traffic_light_all_stop = false ∨
      ((loopResult sub f st).traffic_light_all_stop = true ∧
        (loopResult sub f st).traffic_light_all_green = true)) :
    (Process sub now f st).state.context.stop_start_time = st.context.stop_start_time := by
  have ha : assignsAnchor sub f st = false := by
    unfold assignsAnchor
    rcases h with h | h | ⟨h1, h2⟩
    · simp [h]
    · simp [h]
    · simp [h1, h2]
  rw [Process_stop_start_time, ha]
  simp

/-- Witness for C14: the spec's scenario with both signals green and an
anchor 1 in the context; the cycle finishes and the anchor is still 1. -/
theorem Process_anchor_untouched_witness :
    (Process doubleSub 9 (frameDemo 9 Color.GREEN Color.GREEN)
        (stateDemo ["tl_1", "tl_2"] true 1)).state.context.stop_start_time =
      (stateDemo ["tl_1", "tl_2"] true 1).context.stop_start_time :=
  Process_anchor_untouched 9 (frameDemo 9 Color.GREEN Color.GREEN)
    (stateDemo ["tl_1", "tl_2"] true 1)
    (Or.inr (Or.inr (by
      simp [loopResult, stateDemo, frameDemo, cfgDemo, Process_loop, planCalls])))

/-- C15, as stated, fails: a cycle that returns `RUNNING` overwrites the
stage's cached configuration `scenario_config_` (line 48). Here the cached copy
at entry has right-turn-on-red off while the shared context has it on; the
cycle is out of stop range and returns `RUNNING`, and the cached copy has
changed. -/
theorem Process_frame_counterexample :
    (Process doubleSub 3 (frameDemo 5 Color.RED Color.RED)
        { stateDemo ["tl_1"] true 1 with scenario_config_ := cfgDemo false }).status =
        StageStatus.RUNNING ∧
      (Process doubleSub 3 (frameDemo 5 Color.RED Color.RED)
        { stateDemo ["tl_1"] true 1 with scenario_config_ := cfgDemo false }).state.scenario_config_
        ≠ ({ stateDemo ["tl_1"] true 1 with
          scenario_config_ := cfgDemo false } : State).scenario_config_ := by
  rw [Process_not_stop]
  · simp [stateDemo, cfgDemo]
  · simp [loopResult, stateDemo, frameDemo, cfgDemo, Process_loop, planCalls]
    norm_num

/-- C15 as amended (frame of a cycle that returns `FINISHED` with next stage
`INTERSECTION_CRUISE`, or `RUNNING`). Such a cycle leaves the persisted
status (done-list included) and `creep_start_time` unchanged. A cycle that
returns `RUNNING` moreover leaves the next-stage selector unchanged, and the
state after it is the state before it with the cached configuration
`scenario_config_` overwritten by the shared one and, when the cycle records
the anchor, `stop_start_time` set to the clock reading: besides the
right-of-way flags, nothing else changes. -/
theorem Process_frame (now : ℚ) (f : Frame) (st : State)
    (h : ((Process sub now f st).status = StageStatus.FINISHED ∧
        (Process sub now f st).state.next_stage_ =
          StageType.TRAFFIC_LIGHT_UNPROTECTED_RIGHT_TURN_INTERSECTION_CRUISE) ∨
      (Process sub now f st).status = StageStatus.RUNNING) :
    (Process sub now f st).state.planning_status = st.planning_status ∧
      (Process sub now f st).state.context.creep_start_time = st.context.creep_start_time ∧
      ((Process sub now f st).status = StageStatus.RUNNING →
        (Process sub now f st).state.next_stage_ = st.next_stage_ ∧
        (Process sub now f st).state =
          { st with
            scenario_config_ := st.context.scenario_config
            context := { st.context with
              stop_start_time :=
                if assignsAnchor sub f st = true then now else st.context.stop_start_time } }) := by
  by_cases hne : st.context.current_traffic_light_overlap_ids = []
  · rw [Process_empty now f st hne] at h ⊢
    simp [FinishScenario] at h
  · have ha := @Process_stop_start_time sub now f st
    rw [Process_nonempty now f st hne] at h ha ⊢
    unfold stageDecision at h ha ⊢
    split_ifs at h ha ⊢ <;> simp_all [FinishStage] <;> (subst ha; rfl)

/-- Witness for C15: the first cycle of the spec's scenario returns `RUNNING`
and records the anchor; the stale persisted done-list is left alone. -/
theorem Process_frame_witness :
    (Process doubleSub 1 (frameDemo 9 Color.RED Color.GREEN)
        (stateDemo ["tl_1", "tl_2"] true 0)).state.planning_status =
      (stateDemo ["tl_1", "tl_2"] true 0).planning_status :=
  (Process_frame 1 (frameDemo 9 Color.RED Color.GREEN) (stateDemo ["tl_1", "tl_2"] true 0)
    (Or.inr (by
      rw [Process_nonempty _ _ _ (by simp [stateDemo]), demo_loop_red]
      simp [stageDecision, stateDemo, cfgDemo]))).1

/-- C16 (configuration re-read every cycle). The outcome of a cycle (status,
state afterwards, calls) does not depend on the configuration cached in the
stage at entry: overwriting `scenario_config_` with any value before the cycle
gives the same outcome, so the three policy values act only through the shared
context; and after the cycle the cached copy equals the context's
configuration. -/
theorem Process_config_refresh (now : ℚ) (f : Frame) (st : State) (cfg : ScenarioConfig) :
    Process sub now f { st with scenario_config_ := cfg } = Process sub now f st ∧
      (Process sub now f st).state.scenario_config_ = st.context.scenario_config ∧
      (Process sub now f st).state.scenario_config_ =
        (Process sub now f st).state.context.scenario_config := by
  refine ⟨rfl, ?_⟩
  by_cases hne : st.context.current_traffic_light_overlap_ids = []
  · rw [Process_empty now f st hne]
    simp [FinishScenario]
  · rw [Process_nonempty now f st hne]
    unfold stageDecision
    split_ifs <;> simp [FinishStage]

/-! ## Loop variables and the distance check -/

theorem resolvableIds_eq_nil (f : Frame) (ids : List String)
    (h : ∀ id ∈ ids, f.GetOverlapOnReferenceLine id = none) :
    resolvableIds f ids = [] := by
  unfold resolvableIds
  rw [List.filter_eq_nil_iff]
  intro id hid
  simp [h id hid]

/-- C17 (vacuous green). For a non-empty active sequence none of whose
identifiers resolves to a crossing on the reference line, the cycle returns
`FINISHED` with next stage `INTERSECTION_CRUISE` and makes no right-of-way
call and no colour lookup, whatever the signal colours, the front-edge
position and the policy configuration are. -/
theorem Process_vacuous_green (now : ℚ) (f : Frame) (st : State)
    (hne : st.context.current_traffic_light_overlap_ids ≠ [])
    (hnone : ∀ id ∈ st.context.current_traffic_light_overlap_ids,
      f.GetOverlapOnReferenceLine id = none) :
    (Process sub now f st).status = StageStatus.FINISHED ∧
      (Process sub now f st).state.next_stage_ =
        StageType.TRAFFIC_LIGHT_UNPROTECTED_RIGHT_TURN_INTERSECTION_CRUISE ∧
      rightOfWayCalls (Process sub now f st).calls = [] ∧
      colorLookups (Process sub now f st).calls = [] := by
  have hc := @Process_all_green_of_pass sub now f st hne (by
    intro id hid o ho
    rw [hnone id hid] at ho
    cases ho)
  obtain ⟨_, _, a3, a4⟩ := aggregate_resolvable f
    st.context.scenario_config.max_valid_stop_distance
    st.context.current_traffic_light_overlap_ids
  rw [resolvableIds_eq_nil f _ hnone, aggregate_nil] at a3 a4
  refine ⟨hc.1, hc.2, ?_, ?_⟩
  · rw [rightOfWayCalls_Process, ← a3]
    rfl
  · rw [colorLookups_Process, ← a4]
    rfl

/-- Witness for C17: the active sequence `[ghost_1, ghost_2]`, unknown to the
reference line, with right-turn-on-red enabled and every signal red. -/
theorem Process_vacuous_green_witness :
    (Process doubleSub 3 (frameDemo 9 Color.RED Color.RED)
        (stateDemo ["ghost_1", "ghost_2"] true 0)).status = StageStatus.FINISHED ∧
      (Process doubleSub 3 (frameDemo 9 Color.RED Color.RED)
        (stateDemo ["ghost_1", "ghost_2"] true 0)).state.next_stage_ =
        StageType.TRAFFIC_LIGHT_UNPROTECTED_RIGHT_TURN_INTERSECTION_CRUISE :=
  have h := Process_vacuous_green 3 (frameDemo 9 Color.RED Color.RED)
    (stateDemo ["ghost_1", "ghost_2"] true 0) (by simp [stateDemo])
    (by simp [stateDemo, frameDemo])
  ⟨h.1, h.2.1⟩

theorem aggregate_flags (f : Frame) (m : ℚ) (ids : List String) :
    ¬ ((aggregate sub f m ids).traffic_light_all_stop = false ∧
        (aggregate sub f m ids).traffic_light_all_green = false) ∧
      ((aggregate sub f m ids).traffic_light_all_stop = false ↔
        ∃ A o, firstFailing sub f m ids = some A ∧ f.GetOverlapOnReferenceLine A = some o ∧
          sub o.start_s f.adc_front_edge_s > m) ∧
      ((aggregate sub f m ids).traffic_light_all_green = false ↔
        ∃ A o, firstFailing sub f m ids = some A ∧ f.GetOverlapOnReferenceLine A = some o ∧
          sub o.start_s f.adc_front_edge_s ≤ m ∧ f.GetSignal A ≠ Color.GREEN) := by
  induction ids with
  | nil => simp [aggregate_nil, firstFailing]
  | cons id rest ih =>
    unfold firstFailing at ih ⊢
    cases hov : f.GetOverlapOnReferenceLine id with
    | none =>
      have hf : failsCheck sub f m id = false := by simp [failsCheck, hov]
      rw [aggregate_cons_none f m id rest hov, List.find?_cons_of_neg _ (by simp [hf])]
      exact ih
    | some o =>
      by_cases hd : sub o.start_s f.adc_front_edge_s > m
      · have hf : failsCheck sub f m id = true := by simp [failsCheck, hov, hd]
        rw [aggregate_cons_far f m id rest o hov hd, List.find?_cons_of_pos _ hf]
        refine ⟨by simp, ?_, ?_⟩
        · simp only [true_iff]
          exact ⟨id, o, rfl, hov, hd⟩
        · simp only [Bool.true_eq_false, false_iff]
          rintro ⟨A, p, hA, hp, hle, _⟩
          cases hA
          rw [hov] at hp
          cases hp
          exact absurd hd (not_lt.mpr hle)
      · by_cases hc : f.GetSignal id = Color.GREEN
        · have hf : failsCheck sub f m id = false := by simp [failsCheck, hov, hd, hc]
          rw [aggregate_cons_pass f m id rest o hov hd hc,
            List.find?_cons_of_neg _ (by simp [hf])]
          exact ih
        · have hf : failsCheck sub f m id = true := by simp [failsCheck, hov, hc]
          rw [aggregate_cons_not_green f m id rest o hov hd hc, List.find?_cons_of_pos _ hf]
          refine ⟨by simp, ?_, ?_⟩
          · simp only [Bool.true_eq_false, false_iff]
            rintro ⟨A, p, hA, hp, hgt⟩
            cases hA
            rw [hov] at hp
            cases hp
            exact hd hgt
          · simp only [true_iff]
            exact ⟨id, o, rfl, hov, not_lt.mp hd, hc⟩

/-- C18 (the two loop variables). After the aggregation loop of a cycle the
two variables are never both `false`. `traffic_light_all_stop` is `false`
exactly when the first identifier resolving to a failing crossing fails the
distance check, and `traffic_light_all_green` is `false` exactly when that
crossing passes the distance check and fails the colour check. -/
theorem Process_loop_flags (f : Frame) (st : State) :
    ¬ ((loopResult sub f st).traffic_light_all_stop = false ∧
        (loopResult sub f st).traffic_light_all_green = false) ∧
      ((loopResult sub f st).traffic_light_all_stop = false ↔
        ∃ A o, firstFailing sub f st.context.scenario_config.max_valid_stop_distance
            st.context.current_traffic_light_overlap_ids = some A ∧
          f.GetOverlapOnReferenceLine A = some o ∧
          sub o.start_s f.adc_front_edge_s > st.context.scenario_config.max_valid_stop_distance) ∧
      ((loopResult sub f st).traffic_light_all_green = false ↔
        ∃ A o, firstFailing sub f st.context.scenario_config.max_valid_stop_distance
            st.context.current_traffic_light_overlap_ids = some A ∧
          f.GetOverlapOnReferenceLine A = some o ∧
          sub o.start_s f.adc_front_edge_s ≤
            st.context.scenario_config.max_valid_stop_distance ∧
          f.GetSignal A ≠ Color.GREEN) := by
  rw [loopResult_eq]
  exact aggregate_flags f _ _

/-- C19 (boundary of the distance check). For an active sequence made of one
resolvable crossing, the loop ends within stop range exactly when the distance
the stage computes, `sub start_s adc_front_edge_s`, is at most
`max_valid_stop_distance`. If the crossing is green and within that bound, in
particular at a distance equal to the bound, or at a negative distance with a
non-negative bound, the cycle returns `FINISHED` with next stage
`INTERSECTION_CRUISE`. -/
theorem Process_distance_boundary (now : ℚ) (f : Frame) (st : State) (A : String)
    (o : PathOverlap)
    (hids : st.context.current_traffic_light_overlap_ids = [A])
    (hA : f.GetOverlapOnReferenceLine A = some o) :
    ((loopResult sub f st).traffic_light_all_stop = true ↔
        sub o.start_s f.adc_front_edge_s ≤ st.context.scenario_config.max_valid_stop_distance) ∧
      (f.GetSignal A = Color.GREEN →
        sub o.start_s f.adc_front_edge_s ≤ st.context.scenario_config.max_valid_stop_distance →
        (Process sub now f st).status = StageStatus.FINISHED ∧
        (Process sub now f st).state.next_stage_ =
          StageType.TRAFFIC_LIGHT_UNPROTECTED_RIGHT_TURN_INTERSECTION_CRUISE) ∧
      (f.GetSignal A = Color.GREEN →
        sub o.start_s f.adc_front_edge_s = st.context.scenario_config.max_valid_stop_distance →
        (Process sub now f st).status = StageStatus.FINISHED ∧
        (Process sub now f st).state.next_stage_ =
          StageType.TRAFFIC_LIGHT_UNPROTECTED_RIGHT_TURN_INTERSECTION_CRUISE) ∧
      (f.GetSignal A = Color.GREEN →
        sub o.start_s f.adc_front_edge_s < 0 →
        0 ≤ st.context.scenario_config.max_valid_stop_distance →
        (Process sub now f st).status = StageStatus.FINISHED ∧
        (Process sub now f st).state.next_stage_ =
          StageType.TRAFFIC_LIGHT_UNPROTECTED_RIGHT_TURN_INTERSECTION_CRUISE) := by
  have hcruise : f.GetSignal A = Color.GREEN →
      sub o.start_s f.adc_front_edge_s ≤ st.context.scenario_config.max_valid_stop_distance →
      (Process sub now f st).status = StageStatus.FINISHED ∧
      (Process sub now f st).state.next_stage_ =
        StageType.TRAFFIC_LIGHT_UNPROTECTED_RIGHT_TURN_INTERSECTION_CRUISE := by
    intro hc hd
    refine Process_all_green_of_pass now f st (by simp [hids]) ?_
    intro id hid p hp
    rw [hids, List.mem_singleton] at hid
    subst hid
    rw [hA] at hp
    cases hp
    exact ⟨hd, hc⟩
  refine ⟨?_, hcruise, fun hc he => hcruise hc (le_of_eq he),
    fun hc hneg hmax => hcruise hc (le_trans (le_of_lt hneg) hmax)⟩
  rw [loopResult_eq, hids]
  by_cases hd : sub o.start_s f.adc_front_edge_s >
      st.context.scenario_config.max_valid_stop_distance
  · rw [aggregate_cons_far f _ A [] o hA hd]
    exact ⟨fun h => (by cases h), fun h => absurd hd (not_lt.mpr h)⟩
  · by_cases hc : f.GetSignal A = Color.GREEN
    · rw [aggregate_cons_pass f _ A [] o hA hd hc]
      simp [aggregate_nil, not_lt.mp hd]
    · rw [aggregate_cons_not_green f _ A [] o hA hd hc]
      simp [not_lt.mp hd]

/-- Witness for C19 at the boundary: `tl_1` at the double 0.8, the front edge
at the double 0.3, `max_valid_stop_distance` 0.5, green. The exact difference
of the two doubles is `0.5 + 2 ^ (-54)`; the distance the stage computes is the
double 0.5, equal to the bound, and the cycle returns `FINISHED` with next
stage `INTERSECTION_CRUISE`. -/
theorem Process_distance_boundary_witness :
    (Process doubleSub 3 (frameBoundary Color.GREEN) (stateBoundary 0)).status =
        StageStatus.FINISHED ∧
      (Process doubleSub 3 (frameBoundary Color.GREEN) (stateBoundary 0)).state.next_stage_ =
        StageType.TRAFFIC_LIGHT_UNPROTECTED_RIGHT_TURN_INTERSECTION_CRUISE :=
  (Process_distance_boundary 3 (frameBoundary Color.GREEN) (stateBoundary 0) "tl_1"
    { start_s := double_0_8 } rfl (by simp [frameBoundary])).2.2.1
    (by simp [frameBoundary])
    (by simp [frameBoundary, stateBoundary, doubleSub_0_8_0_3])

/-! ## Right-turn-on-red switched on mid-stage -/

theorem Process_context_disabled (now : ℚ) (f : Frame) (st : State)
    (hoff : st.context.scenario_config.enable_right_turn_on_red = false) :
    (Process sub now f st).state.context = st.context := by
  by_cases hne : st.context.current_traffic_light_overlap_ids = []
  · rw [Process_empty now f st hne]
    simp [FinishScenario]
  · rw [Process_nonempty now f st hne]
    simp only [stageDecision, hoff, Bool.false_eq_true, if_false]
    split_ifs <;> simp [FinishStage]

theorem stateAfter_context_disabled (cycles : List (ℚ × Frame)) (st : State)
    (hoff : st.context.scenario_config.enable_right_turn_on_red = false) :
    (stateAfter sub cycles st).context = st.context := by
  induction cycles generalizing st with
  | nil => rfl
  | cons c rest ih =>
    obtain ⟨now, f⟩ := c
    have hc := @Process_context_disabled sub now f st hoff
    simp only [stateAfter]
    rw [ih _ (by rw [hc]; exact hoff), hc]

/-- The wait path of lines 107-122: with right-turn-on-red enabled and the loop
ending within stop range and not all green, the cycle records the anchor when
none is held, finishes towards the creep stage when the recorded wait is
exceeded, and keeps running otherwise. -/
theorem Process_wait_branch (now : ℚ) (f : Frame) (st : State)
    (henable : st.context.scenario_config.enable_right_turn_on_red = true)
    (hstop : (loopResult sub f st).traffic_light_all_stop = true)
    (hgreen : (loopResult sub f st).traffic_light_all_green = false) :
    Process sub now f st =
      if st.context.stop_start_time = 0 then
        { status := StageStatus.RUNNING
          state := { st with
            scenario_config_ := st.context.scenario_config
            context := { st.context with stop_start_time := now } }
          calls := (loopResult sub f st).calls }
      else if sub now st.context.stop_start_time >
          st.context.scenario_config.red_light_right_turn_stop_duration_sec then
        FinishStage now false { st with scenario_config_ := st.context.scenario_config }
          (loopResult sub f st).calls
      else
        { status := StageStatus.RUNNING
          state := { st with scenario_config_ := st.context.scenario_config }
          calls := (loopResult sub f st).calls } := by
  have hne : st.context.current_traffic_light_overlap_ids ≠ [] := by
    intro h
    have := (@loopResult_nil sub f st h).2
    rw [hgreen] at this
    cases this
  rw [Process_nonempty now f st hne]
  simp [stageDecision, hstop, hgreen, henable]

/-- C20 as amended (switch off, then on). With `enable_right_turn_on_red`
false no cycle executes the assignment of `stop_start_time` or changes its
value, and consecutive cycles leave the whole shared context as it is. If no
anchor is held and the owner then enables right-turn-on-red, the first cycle
after enabling that is within stop range and not all green records its own
clock reading as the anchor and returns `RUNNING`; and, when that reading is
different from 0.0, a later such cycle finishes towards the creep stage exactly
when the wait computed from the enabling cycle's reading exceeds the configured
duration: the wait is counted from the enabling cycle, whenever the earlier
cycles took place. -/
theorem Process_enable_after_waiting (cycles : List (ℚ × Frame)) (st : State)
    (now : ℚ) (f : Frame)
    (hoff : st.context.scenario_config.enable_right_turn_on_red = false) :
    (∀ t g, assignsAnchor sub g st = false ∧
        (Process sub t g st).state.context.stop_start_time = st.context.stop_start_time) ∧
      (stateAfter sub cycles st).context = st.context ∧
      (st.context.stop_start_time = 0 →
        (loopResult sub f st).traffic_light_all_stop = true →
        (loopResult sub f st).traffic_light_all_green = false →
        (Process sub now f (ownerEnablesRightTurnOnRed
            (stateAfter sub cycles st))).state.context.stop_start_time = now ∧
          (Process sub now f (ownerEnablesRightTurnOnRed
            (stateAfter sub cycles st))).status = StageStatus.RUNNING ∧
          (now ≠ 0 → ∀ t g,
            (loopResult sub g st).traffic_light_all_stop = true →
            (loopResult sub g st).traffic_light_all_green = false →
            (sub t now > st.context.scenario_config.red_light_right_turn_stop_duration_sec →
              (Process sub t g (Process sub now f (ownerEnablesRightTurnOnRed
                (stateAfter sub cycles st))).state).status = StageStatus.FINISHED ∧
              (Process sub t g (Process sub now f (ownerEnablesRightTurnOnRed
                (stateAfter sub cycles st))).state).state.next_stage_ =
                StageType.TRAFFIC_LIGHT_UNPROTECTED_RIGHT_TURN_CREEP) ∧
            (sub t now ≤ st.context.scenario_config.red_light_right_turn_stop_duration_sec →
              (Process sub t g (Process sub now f (ownerEnablesRightTurnOnRed
                (stateAfter sub cycles st))).state).status = StageStatus.RUNNING))) := by
  have hctx := @stateAfter_context_disabled sub cycles st hoff
  refine ⟨?_, hctx, ?_⟩
  · intro t g
    refine ⟨by simp [assignsAnchor, hoff], ?_⟩
    rw [Process_context_disabled t g st hoff]
  · intro hunset hstop hgreen
    have hl : ∀ g, loopResult sub g (ownerEnablesRightTurnOnRed (stateAfter sub cycles st)) =
        loopResult sub g st := by
      intro g
      unfold loopResult ownerEnablesRightTurnOnRed
      simp only [hctx]
    have hen : (ownerEnablesRightTurnOnRed
        (stateAfter sub cycles st)).context.scenario_config.enable_right_turn_on_red = true := rfl
    have h0 : (ownerEnablesRightTurnOnRed
        (stateAfter sub cycles st)).context.stop_start_time = 0 := by
      simp [ownerEnablesRightTurnOnRed, hctx, hunset]
    have hP := Process_wait_branch now f (ownerEnablesRightTurnOnRed (stateAfter sub cycles st))
      hen (by rw [hl]; exact hstop) (by rw [hl]; exact hgreen)
    rw [if_pos h0] at hP
    rw [hP]
    refine ⟨rfl, rfl, ?_⟩
    intro hnow t g hs hg
    have hl2 : loopResult sub g
        ({ ownerEnablesRightTurnOnRed (stateAfter sub cycles st) with
          scenario_config_ :=
            (ownerEnablesRightTurnOnRed (stateAfter sub cycles st)).context.scenario_config
          context := { (ownerEnablesRightTurnOnRed (stateAfter sub cycles st)).context with
            stop_start_time := now } } : State) = loopResult sub g st := by
      unfold loopResult ownerEnablesRightTurnOnRed
      simp only [hctx]
    have hQ := Process_wait_branch t g
      ({ ownerEnablesRightTurnOnRed (stateAfter sub cycles st) with
        scenario_config_ :=
          (ownerEnablesRightTurnOnRed (stateAfter sub cycles st)).context.scenario_config
        context := { (ownerEnablesRightTurnOnRed (stateAfter sub cycles st)).context with
          stop_start_time := now } } : State)
      rfl (by rw [hl2]; exact hs) (by rw [hl2]; exact hg)
    rw [hQ]
    simp only [if_neg hnow]
    have hd : (ownerEnablesRightTurnOnRed
        (stateAfter sub cycles st)).context.scenario_config.red_light_right_turn_stop_duration_sec =
        st.context.scenario_config.red_light_right_turn_stop_duration_sec := by
      simp [ownerEnablesRightTurnOnRed, hctx]
    constructor
    · intro h
      rw [if_pos (by rw [hd]; exact h)]
      simp [FinishStage]
    · intro h
      rw [if_neg (by rw [hd]; exact not_lt.mpr h)]

/-- Witness for C20 on the spec's scenario: two waiting cycles at times 1 and
3 with right-turn-on-red off, then the owner enables it; the cycle at time 10
records the anchor 10 and returns `RUNNING`, although 9 s have passed since
the first stopped cycle and the configured wait is 5 s. -/
theorem Process_enable_after_waiting_witness :
    (Process doubleSub 10 (frameDemo 9 Color.RED Color.GREEN)
        (ownerEnablesRightTurnOnRed
          (stateAfter doubleSub
            [(1, frameDemo 9 Color.RED Color.GREEN), (3, frameDemo 9 Color.RED Color.GREEN)]
            (stateDemo ["tl_1", "tl_2"] false 0)))).state.context.stop_start_time = 10 ∧
      (Process doubleSub 10 (frameDemo 9 Color.RED Color.GREEN)
        (ownerEnablesRightTurnOnRed
          (stateAfter doubleSub
            [(1, frameDemo 9 Color.RED Color.GREEN), (3, frameDemo 9 Color.RED Color.GREEN)]
            (stateDemo ["tl_1", "tl_2"] false 0)))).status = StageStatus.RUNNING :=
  have h := (Process_enable_after_waiting
    [(1, frameDemo 9 Color.RED Color.GREEN), (3, frameDemo 9 Color.RED Color.GREEN)]
    (stateDemo ["tl_1", "tl_2"] false 0) 10 (frameDemo 9 Color.RED Color.GREEN) rfl).2.2
    rfl (by rw [demo_loop_red]) (by rw [demo_loop_red])
  ⟨h.1, h.2.1⟩

/-- C20, as stated, fails when the enabling cycle runs at clock reading 0.0.
On the spec's scenario two waiting cycles run with right-turn-on-red off, at
-2.0 and -1.0; the owner enables it and the next cycle, at 0.0, records the
anchor 0.0 and returns `RUNNING`. At the following cycle, at 1000.0, the time
elapsed since the enabling cycle exceeds the configured 5.0, yet the cycle
returns `RUNNING` and moves the anchor to 1000.0: the wait is not counted from
the enabling cycle. -/
theorem Process_enable_after_waiting_counterexample :
    (Process doubleSub 0 (frameDemo 9 Color.RED Color.GREEN)
        (ownerEnablesRightTurnOnRed
          (stateAfter doubleSub
            [(-2, frameDemo 9 Color.RED Color.GREEN), (-1, frameDemo 9 Color.RED Color.GREEN)]
            (stateDemo ["tl_1", "tl_2"] false 0)))).status = StageStatus.RUNNING ∧
      (Process doubleSub 0 (frameDemo 9 Color.RED Color.GREEN)
        (ownerEnablesRightTurnOnRed
          (stateAfter doubleSub
            [(-2, frameDemo 9 Color.RED Color.GREEN), (-1, frameDemo 9 Color.RED Color.GREEN)]
            (stateDemo ["tl_1", "tl_2"] false 0)))).state.context.stop_start_time = 0 ∧
      doubleSub 1000 0 >
        (stateDemo ["tl_1", "tl_2"]
          false 0).context.scenario_config.red_light_right_turn_stop_duration_sec ∧
      (Process doubleSub 1000 (frameDemo 9 Color.RED Color.GREEN)
        (Process doubleSub 0 (frameDemo 9 Color.RED Color.GREEN)
          (ownerEnablesRightTurnOnRed
            (stateAfter doubleSub
              [(-2, frameDemo 9 Color.RED Color.GREEN),
                (-1, frameDemo 9 Color.RED Color.GREEN)]
              (stateDemo ["tl_1", "tl_2"] false 0)))).state).status = StageStatus.RUNNING ∧
      (Process doubleSub 1000 (frameDemo 9 Color.RED Color.GREEN)
        (Process doubleSub 0 (frameDemo 9 Color.RED Color.GREEN)
          (ownerEnablesRightTurnOnRed
            (stateAfter doubleSub
              [(-2, frameDemo 9 Color.RED Color.GREEN),
                (-1, frameDemo 9 Color.RED Color.GREEN)]
              (stateDemo ["tl_1", "tl_2"]
                false 0)))).state).state.context.stop_start_time = 1000 := by
  have hA : stateAfter doubleSub
      [(-2, frameDemo 9 Color.RED Color.GREEN), (-1, frameDemo 9 Color.RED Color.GREEN)]
      (stateDemo ["tl_1", "tl_2"] false 0) = stateDemo ["tl_1", "tl_2"] false 0 := by
    simp only [stateAfter, demo_disabled_cycle]
  have hE : (Process doubleSub 0 (frameDemo 9 Color.RED Color.GREEN)
      (ownerEnablesRightTurnOnRed (stateDemo ["tl_1", "tl_2"] false 0))) =
      { status := StageStatus.RUNNING
        state := stateDemo ["tl_1", "tl_2"] true 0
        calls := [Call.ExecuteTaskOnReferenceLine, Call.GetOverlapOnReferenceLine "tl_1",
          Call.SetJunctionRightOfWay 10 false, Call.GetSignal "tl_1"] } := by
    have hl : loopResult doubleSub (frameDemo 9 Color.RED Color.GREEN)
        (ownerEnablesRightTurnOnRed (stateDemo ["tl_1", "tl_2"] false 0)) =
        loopResult doubleSub (frameDemo 9 Color.RED Color.GREEN)
          (stateDemo ["tl_1", "tl_2"] false 0) := rfl
    rw [Process_nonempty _ _ _ (by simp [stateDemo, ownerEnablesRightTurnOnRed]), hl,
      demo_loop_red]
    simp [stageDecision, stateDemo, cfgDemo, ownerEnablesRightTurnOnRed]
  rw [hA, hE]
  refine ⟨rfl, rfl, ?_, ?_, ?_⟩
  · rw [doubleSub_1000_0]
    norm_num [stateDemo, cfgDemo]
  · rw [Process_nonempty _ _ _ (by simp [stateDemo]), demo_loop_red]
    simp [stageDecision, stateDemo, cfgDemo]
  · rw [Process_stop_start_time, demo_assigns_at_zero]
    simp

end StageStop
